import Mathlib

/-!
Verification of the a2a-weather intent-routing and protocol-bridging core.

Shallow embedding of the Python sources:
  - `agent_executor.py`  (query extraction, city extraction, intent parsing, dispatch)
  - `weather_agent.py`   (per-skill error handling around external capabilities)
  - `servicenow_handler.py` (dual-protocol JSON-RPC bridge)

Text is modelled as `List Char` (`Str`).  The regular expressions in the
source use only alternation, optional groups, literals, character classes and
repetition of single-character classes, so they are embedded through a small
backtracking engine (`reMatch` / `reSearch`) that follows Python `re.search`
semantics: leftmost start position wins, alternatives are tried left to
right, greedy repetition tries longest first, lazy repetition shortest first.
External collaborators (the OpenWeatherMap client and the Gemini client) are
quantified over as a `Behavior` record, as the spec places them out of scope.
-/

set_option autoImplicit false

namespace A2AWeather

abbrev Str := List Char

def strL (s : String) : Str := s.data

/-- ASCII whitespace (codes 32, 9-13), matching both Python `\s` (ASCII
part) and `str.strip`. -/
def isWs (c : Char) : Bool :=
  c.toNat = 32 || c.toNat = 9 || c.toNat = 10 || c.toNat = 13 ||
  c.toNat = 11 || c.toNat = 12

/-- `A`-`Z` (codes 65-90). -/
def isUpperAscii (c : Char) : Bool := 65 ≤ c.toNat && c.toNat ≤ 90

/-- `a`-`z` (codes 97-122). -/
def isLowerAscii (c : Char) : Bool := 97 ≤ c.toNat && c.toNat ≤ 122

/-- `[A-Za-z]`; also `[A-Z]` under `re.IGNORECASE`. -/
def isAlphaAscii (c : Char) : Bool := isUpperAscii c || isLowerAscii c

/-- `[A-Za-z\s]`. -/
def isAlphaWs (c : Char) : Bool := isAlphaAscii c || isWs c

/-- `0`-`9` (codes 48-57). -/
def isDigitAscii (c : Char) : Bool := 48 ≤ c.toNat && c.toNat ≤ 57

/-- Python `\w` (ASCII part), for `\b` word boundaries. -/
def isWordChar (c : Char) : Bool := isAlphaAscii c || isDigitAscii c || c = '_'

def lowerStr (s : Str) : Str := s.map Char.toLower

/-- Python `str.strip()`. -/
def pyStrip (s : Str) : Str :=
  ((s.dropWhile isWs).reverse.dropWhile isWs).reverse

/-- Whether `w` occurs as a contiguous substring of `s` (Python `w in s`). -/
def containsSub (s w : Str) : Bool :=
  match s with
  | [] => w.isEmpty
  | _ :: t => w.isPrefixOf s || containsSub t w

def containsAnySub (s : Str) (ws : List Str) : Bool := ws.any (containsSub s)

/-- Python `str.split()` with no argument: split on whitespace runs. -/
def pySplitAux : Str → Str → List Str
  | [], cur => if cur.isEmpty then [] else [cur.reverse]
  | c :: t, cur =>
    if isWs c then
      if cur.isEmpty then pySplitAux t [] else cur.reverse :: pySplitAux t []
    else pySplitAux t (c :: cur)

def pySplit (s : Str) : List Str := pySplitAux s []

/-- Python `int` on a digit string. -/
def digitsToNat (s : Str) : Nat := s.foldl (fun a c => a * 10 + (c.toNat - 48)) 0

/-! ## A small backtracking regex engine (Python `re` semantics) -/

/-- Regex AST.  Repetition (`rep`) is restricted to single-character classes,
which covers every pattern in the source.  `rep lzy one p` is `p*` / `p+` /
`p*?` / `p+?` according to the flags. -/
inductive RE where
  | eps
  | cls (p : Char → Bool)
  | cat (a b : RE)
  | alt (a b : RE)
  | opt (a : RE)
  | rep (lzy : Bool) (one : Bool) (p : Char → Bool)
  | grp (g : Nat) (a : RE)
  | eos
  | wordB

/-- Captured groups: (group index, start, end). -/
abbrev Caps := List (Nat × Nat × Nat)

/-- Length of the maximal run of characters satisfying `p`. -/
def runLenFrom (p : Char → Bool) : Str → Nat
  | [] => 0
  | c :: t => if p c then runLenFrom p t + 1 else 0

def runLen (p : Char → Bool) (s : Str) (i : Nat) : Nat := runLenFrom p (s.drop i)

/-- `[lo, lo+1, ..., lo+n-1]`. -/
def upRange (lo : Nat) : Nat → List Nat
  | 0 => []
  | n + 1 => lo :: upRange (lo + 1) n

/-- `[hi, hi-1, ..., hi-n+1]`. -/
def downRange (hi : Nat) : Nat → List Nat
  | 0 => []
  | n + 1 => hi :: downRange (hi - 1) n

def firstSome {α β : Type} (f : α → Option β) : List α → Option β
  | [] => none
  | x :: xs => match f x with
    | some r => some r
    | none => firstSome f xs

/-- Backtracking matcher in continuation-passing style.  `reMatch s re i cs k`
attempts to match `re` at position `i` of `s` with captures `cs`; on each
success it calls `k` with the new position and captures, and alternatives are
explored in Python priority order until `k` succeeds. -/
def reMatch (s : Str) : RE → Nat → Caps → (Nat → Caps → Option (Nat × Caps)) →
    Option (Nat × Caps)
  | .eps, i, cs, k => k i cs
  | .cls p, i, cs, k =>
    match s.get? i with
    | some c => if p c then k (i + 1) cs else none
    | none => none
  | .cat a b, i, cs, k => reMatch s a i cs (fun j cs2 => reMatch s b j cs2 k)
  | .alt a b, i, cs, k =>
    match reMatch s a i cs k with
    | some r => some r
    | none => reMatch s b i cs k
  | .opt a, i, cs, k =>
    match reMatch s a i cs k with
    | some r => some r
    | none => k i cs
  | .rep lzy one p, i, cs, k =>
    let m := runLen p s i
    let cands := if lzy then (if one then upRange 1 m else upRange 0 (m + 1))
                 else (if one then downRange m m else downRange m (m + 1))
    firstSome (fun j => k (i + j) cs) cands
  | .grp g a, i, cs, k => reMatch s a i cs (fun j cs2 => k j ((g, i, j) :: cs2))
  | .eos, i, cs, k => if i = s.length then k i cs else none
  | .wordB, i, cs, k =>
    let before := match i with
      | 0 => false
      | i0 + 1 => match s.get? i0 with
        | some c => isWordChar c
        | none => false
    let after := match s.get? i with
      | some c => isWordChar c
      | none => false
    if before ≠ after then k i cs else none

/-- Try to match `re` anchored at position `i`; returns (end, captures). -/
def matchAt (s : Str) (re : RE) (i : Nat) : Option (Nat × Caps) :=
  reMatch s re i [] (fun j cs => some (j, cs))

/-- Scan start positions `i, i+1, ...` (with fuel), leftmost match wins —
Python `re.search` applied from position `i`. -/
def reSearchAux (s : Str) (re : RE) : Nat → Nat → Option (Nat × Nat × Caps)
  | _, 0 => none
  | i, fuel + 1 =>
    match matchAt s re i with
    | some (j, cs) => some (i, j, cs)
    | none => reSearchAux s re (i + 1) fuel

def reSearchFrom (s : Str) (re : RE) (i : Nat) : Option (Nat × Nat × Caps) :=
  reSearchAux s re i (s.length + 1 - i)

/-- Python `re.search`. -/
def reSearch (s : Str) (re : RE) : Option (Nat × Nat × Caps) :=
  reSearchFrom s re 0

/-- The text captured by group `g`, if that group matched. -/
def capStr (s : Str) (cs : Caps) (g : Nat) : Option Str :=
  match cs.lookup g with
  | some (b, e) => some ((s.take e).drop b)
  | none => none

/-- Python `re.findall` collecting group `g` of each non-overlapping match. -/
def findAllAux (s : Str) (re : RE) (g : Nat) : Nat → Nat → List Str
  | _, 0 => []
  | pos, fuel + 1 =>
    match reSearchFrom s re pos with
    | none => []
    | some (b, e, cs) =>
      ((capStr s cs g).getD []) ::
        findAllAux s re g (if b < e then e else e + 1) fuel

def reFindAll (s : Str) (re : RE) (g : Nat) : List Str :=
  findAllAux s re g 0 (s.length + 1)

/-! ### Pattern building blocks -/

/-- A case-sensitive literal character. -/
def litChar (c : Char) : RE := .cls (fun x => x = c)

/-- A literal character under `re.IGNORECASE` (ASCII folding). -/
def litCharIC (c : Char) : RE := .cls (fun x => x.toLower = c.toLower)

def litStr (w : Str) : RE := w.foldr (fun c r => .cat (litChar c) r) .eps

def litStrIC (w : Str) : RE := w.foldr (fun c r => .cat (litCharIC c) r) .eps

/-- `\s+`. -/
def wsPlus : RE := .rep false true isWs

/-- `\s*`. -/
def wsStar : RE := .rep false false isWs

/-! ## The regex patterns of `agent_executor.py`

All `re.search` calls in `_extract_city` and `_parse_intent` use
`re.IGNORECASE`; the `re.findall` fallback and the day-count search do not. -/

/-- `(?:in|for|at)`. -/
def inForAt : RE :=
  .alt (litStrIC (strL "in")) (.alt (litStrIC (strL "for")) (litStrIC (strL "at")))

/-- `(?:\s*,\s*([A-Z]{2}))?` — the optional country-code suffix (group 2);
under `IGNORECASE`, `[A-Z]` matches any ASCII letter. -/
def optCountry : RE :=
  .opt (.cat wsStar (.cat (litChar ',') (.cat wsStar
    (.grp 2 (.cat (.cls isAlphaAscii) (.cls isAlphaAscii))))))

/-- `(?:\?|$|today|tomorrow|this|next)`. -/
def cityStop : RE :=
  .alt (litChar '?') (.alt .eos (.alt (litStrIC (strL "today"))
    (.alt (litStrIC (strL "tomorrow"))
      (.alt (litStrIC (strL "this")) (litStrIC (strL "next"))))))

/-- City pattern 1:
`(?:in|for|at)\s+([A-Za-z\s]+?)(?:\s*,\s*([A-Z]{2}))?\s*(?:\?|$|today|tomorrow|this|next)`. -/
def cityP1 : RE :=
  .cat inForAt (.cat wsPlus (.cat (.grp 1 (.rep true true isAlphaWs))
    (.cat optCountry (.cat wsStar cityStop))))

/-- City pattern 2:
`(?:weather|forecast|temperature|air quality)\s+(?:in|for|at)?\s*([A-Za-z\s]+?)(?:\s*,\s*([A-Z]{2}))?\s*(?:\?|$)`. -/
def cityP2 : RE :=
  .cat (.alt (litStrIC (strL "weather")) (.alt (litStrIC (strL "forecast"))
      (.alt (litStrIC (strL "temperature")) (litStrIC (strL "air quality")))))
    (.cat wsPlus (.cat (.opt inForAt) (.cat wsStar
      (.cat (.grp 1 (.rep true true isAlphaWs))
        (.cat optCountry (.cat wsStar (.alt (litChar '?') .eos)))))))

/-- `([A-Za-z]+(?:\s+[A-Za-z]+)?)` — one or two words, as group 1. -/
def oneTwoWords : RE :=
  .grp 1 (.cat (.rep false true isAlphaAscii)
    (.opt (.cat wsPlus (.rep false true isAlphaAscii))))

/-- City pattern 3: `([A-Za-z]+(?:\s+[A-Za-z]+)?)\s+weather`. -/
def cityP3 : RE := .cat oneTwoWords (.cat wsPlus (litStrIC (strL "weather")))

/-- City pattern 4: `([A-Za-z]+(?:\s+[A-Za-z]+)?)\s+forecast`. -/
def cityP4 : RE := .cat oneTwoWords (.cat wsPlus (litStrIC (strL "forecast")))

/-- Compare pattern 1:
`compare\s+([A-Za-z\s]+?)\s+(?:and|vs|versus|with)\s+([A-Za-z\s]+)`. -/
def compareP1 : RE :=
  .cat (litStrIC (strL "compare")) (.cat wsPlus
    (.cat (.grp 1 (.rep true true isAlphaWs)) (.cat wsPlus
      (.cat (.alt (litStrIC (strL "and")) (.alt (litStrIC (strL "vs"))
          (.alt (litStrIC (strL "versus")) (litStrIC (strL "with")))))
        (.cat wsPlus (.grp 2 (.rep false true isAlphaWs)))))))

/-- Compare pattern 2: `([A-Za-z\s]+?)\s+(?:vs|versus)\s+([A-Za-z\s]+)`. -/
def compareP2 : RE :=
  .cat (.grp 1 (.rep true true isAlphaWs)) (.cat wsPlus
    (.cat (.alt (litStrIC (strL "vs")) (litStrIC (strL "versus")))
      (.cat wsPlus (.grp 2 (.rep false true isAlphaWs)))))

/-- Compare pattern 3: `weather\s+(?:in\s+)?([A-Za-z\s]+?)\s+(?:and|vs|or)\s+([A-Za-z\s]+)`. -/
def compareP3 : RE :=
  .cat (litStrIC (strL "weather")) (.cat wsPlus
    (.cat (.opt (.cat (litStrIC (strL "in")) wsPlus))
      (.cat (.grp 1 (.rep true true isAlphaWs)) (.cat wsPlus
        (.cat (.alt (litStrIC (strL "and")) (.alt (litStrIC (strL "vs"))
            (litStrIC (strL "or"))))
          (.cat wsPlus (.grp 2 (.rep false true isAlphaWs))))))))

/-- `(\d+)\s*day` — searched on the lowercased query, no `IGNORECASE`. -/
def daysRE : RE :=
  .cat (.grp 1 (.rep false true isDigitAscii)) (.cat wsStar (litStr (strL "day")))

/-- `\b([A-Z][a-z]+(?:\s+[A-Z][a-z]+)?)\b` — the capitalized-word fallback,
searched without `IGNORECASE`. -/
def capWordRE : RE :=
  .cat .wordB (.cat (.grp 1 (.cat (.cls isUpperAscii)
    (.cat (.rep false true isLowerAscii)
      (.opt (.cat wsPlus (.cat (.cls isUpperAscii) (.rep false true isLowerAscii)))))))
    .wordB)

/-! ## `WeatherAgentExecutor._extract_city` -/

/-- The stop-list used by the capitalized-word fallback. -/
def skipWords : List Str :=
  [strL "weather", strL "forecast", strL "temperature", strL "humidity",
   strL "wind", strL "rain", strL "snow", strL "sunny", strL "cloudy",
   strL "air", strL "quality", strL "today", strL "tomorrow", strL "what",
   strL "how", strL "is", strL "the", strL "in", strL "for", strL "at",
   strL "get", strL "show", strL "tell", strL "me", strL "current",
   strL "now", strL "compare", strL "vs", strL "and", strL "between"]

/-- From a successful pattern match: `city = group(1).strip()`, and when a
country code was captured the result is `f"{city},{country}"`. -/
def cityFromMatch (q : Str) (cs : Caps) : Str :=
  let city := pyStrip ((capStr q cs 1).getD [])
  match capStr q cs 2 with
  | some country => city ++ [','] ++ country
  | none => city

/-- The loop over `words` in the fallback: first word whose lowercase form is
not in the stop list. -/
def firstNonSkip : List Str → Option Str
  | [] => none
  | w :: ws => if skipWords.contains (lowerStr w) then firstNonSkip ws else some w

/-- `WeatherAgentExecutor._extract_city` (agent_executor.py lines 81-112). -/
def extract_city (q : Str) : Option Str :=
  match reSearch q cityP1 with
  | some (_, _, cs) => some (cityFromMatch q cs)
  | none =>
  match reSearch q cityP2 with
  | some (_, _, cs) => some (cityFromMatch q cs)
  | none =>
  match reSearch q cityP3 with
  | some (_, _, cs) => some (cityFromMatch q cs)
  | none =>
  match reSearch q cityP4 with
  | some (_, _, cs) => some (cityFromMatch q cs)
  | none => firstNonSkip (reFindAll q capWordRE 1)

/-! ## `WeatherAgentExecutor._parse_intent` -/

/-- The intent produced by `_parse_intent`: a skill tag with its parameters. -/
inductive Intent where
  | compare (city1 city2 : Str)
  | forecast (city : Str) (days : Nat)
  | airQuality (city : Str)
  | recommendations (city : Str)
  | summary (city : Str)
  | current (city : Str)
  | query (question : Str)
deriving DecidableEq, Repr

/-- The compare-pattern loop: first of the three patterns that matches, with
its two captured groups. -/
def compareMatch (q : Str) : Option (Str × Str) :=
  match reSearch q compareP1 with
  | some (_, _, cs) => some ((capStr q cs 1).getD [], (capStr q cs 2).getD [])
  | none =>
  match reSearch q compareP2 with
  | some (_, _, cs) => some ((capStr q cs 1).getD [], (capStr q cs 2).getD [])
  | none =>
  match reSearch q compareP3 with
  | some (_, _, cs) => some ((capStr q cs 1).getD [], (capStr q cs 2).getD [])
  | none => none

def forecastWords : List Str :=
  [strL "forecast", strL "next few days", strL "this week", strL "tomorrow"]

def airWords : List Str :=
  [strL "air quality", strL "aqi", strL "pollution", strL "smog"]

def recommendWords : List Str :=
  [strL "what to wear", strL "should i", strL "recommend", strL "suggestion",
   strL "umbrella", strL "jacket"]

def summaryWords : List Str :=
  [strL "summary", strL "complete", strL "full report", strL "everything",
   strL "all info"]

def currentWords : List Str :=
  [strL "weather", strL "temperature", strL "temp", strL "hot", strL "cold",
   strL "rain", strL "sunny", strL "cloudy", strL "humid"]

/-- Day-count extraction in the forecast branch:
`int(match.group(1))` from `(\d+)\s*day` on `query_lower`, default 3. -/
def daysOf (ql : Str) : Nat :=
  match reSearch ql daysRE with
  | some (_, _, cs) => digitsToNat ((capStr ql cs 1).getD [])
  | none => 3

/-- `WeatherAgentExecutor._parse_intent` (agent_executor.py lines 114-198).
Python's `if keyword: city = ...; if city: return ...` cascade is rendered as
guards `keyword && city found`; falling through both ways is identical. -/
def parse_intent (q : Str) : Intent :=
  let ql := pyStrip (lowerStr q)
  match compareMatch q with
  | some (c1, c2) => .compare (pyStrip c1) (pyStrip c2)
  | none =>
    if containsAnySub ql forecastWords && (extract_city q).isSome then
      .forecast ((extract_city q).getD []) (daysOf ql)
    else if containsAnySub ql airWords && (extract_city q).isSome then
      .airQuality ((extract_city q).getD [])
    else if containsAnySub ql recommendWords && (extract_city q).isSome then
      .recommendations ((extract_city q).getD [])
    else if containsAnySub ql summaryWords && (extract_city q).isSome then
      .summary ((extract_city q).getD [])
    else if containsAnySub ql currentWords && (extract_city q).isSome then
      .current ((extract_city q).getD [])
    else if (extract_city q).isSome && (pySplit q).length ≤ 3 then
      .current ((extract_city q).getD [])
    else .query q

/-! ## `weather_agent.py` — the WeatherAgent skills

The OpenWeatherMap client and the Gemini client are external collaborators
(spec §1): their calls are modelled as oracle fields of a `Behavior` record.
A call either raises (`Except.error` with the exception text, `str(e)`) or
returns a provider-shaped record, modelled opaquely as `Str`.  The client's
pure formatting helpers (`format_current_weather`, …) and `json.dumps` are
likewise oracle fields; the float arithmetic inside `compare_weather`'s
table construction is folded into the `compareTable` field (floating point
is not shallowly embeddable, and no claim depends on the table text).
The glyph prefixes below are the literal characters of the source file. -/

/-- One geocoding candidate, as used by `get_air_quality` and
`get_weather_summary` (`lat` / `lon` / optional `name` / `country`). -/
structure Loc where
  lat : Int
  lon : Int
  name : Option Str
  country : Option Str

structure Behavior where
  /-- `self.weather.get_current_weather(city=...)`. -/
  currentData : Str → Except Str Str
  /-- `self.weather.get_forecast(city=...)`. -/
  forecastData : Str → Except Str Str
  /-- `self.weather.geocode(city)`. -/
  geocode : Str → Except Str (List Loc)
  /-- `self.weather.get_air_quality(lat, lon)`. -/
  airData : Int → Int → Except Str Str
  /-- `self.genai_client.models.generate_content(...)` followed by `.text`. -/
  ai : Str → Except Str Str
  /-- `self.weather.format_current_weather(data)`. -/
  formatCurrent : Str → Str
  /-- `self.weather.format_forecast(data, days=...)`. -/
  formatForecast : Str → Nat → Str
  /-- `self.weather.format_air_quality(data)`. -/
  formatAir : Str → Str
  /-- `json.dumps(data, indent=2)`. -/
  dumps : Str → Str
  /-- The comparison table plus summary line built from two provider records
  (`compare_weather` lines 199-233, float formatting abstracted). -/
  compareTable : Str → Str → Str
  /-- `current.get('main', {})` rendered for the summary AI prompt. -/
  mainOf : Str → Str
  /-- `current.get('weather', [{}])[0].get('description', 'Unknown')`. -/
  descOf : Str → Str

/-- The failure-glyph prefix of `weather_agent.py`'s error strings (the
literal three characters of the source file). -/
def glyphW : Str := strL "‚ùå"

/-- `WeatherAgent._ai_analyze`: returns generated text stripped, or the
"AI analysis unavailable" fallback — never raises. -/
def ai_analyze (b : Behavior) (prompt : Str) : Str :=
  match b.ai prompt with
  | .ok t => pyStrip t
  | .error e => strL "AI analysis unavailable: " ++ e

/-- The not-found reply of `get_current_weather` (weather_agent.py line 74). -/
def currentNotFoundMsg (city : Str) : Str :=
  glyphW ++ strL " City '" ++ city ++
    strL "' not found. Please check the spelling or try adding a country code (e.g., 'Paris,FR')."

/-- The generic error reply of `get_current_weather` (line 75). -/
def currentErrorMsg (city e : Str) : Str :=
  glyphW ++ strL " Error fetching weather for " ++ city ++ strL ": " ++ e

/-- `WeatherAgent.get_current_weather` (weather_agent.py lines 58-75). -/
def get_current_weather (b : Behavior) (city : Str) : Str :=
  match b.currentData city with
  | .ok data => b.formatCurrent data
  | .error e =>
    if containsSub e (strL "404") then currentNotFoundMsg city
    else currentErrorMsg city e

/-- `WeatherAgent.get_forecast` (weather_agent.py lines 81-100); `days` is
clamped to `[1, 5]` before formatting. -/
def get_forecast (b : Behavior) (city : Str) (days : Nat) : Str :=
  match b.forecastData city with
  | .ok data => b.formatForecast data (min (max days 1) 5)
  | .error e =>
    if containsSub e (strL "404") then
      glyphW ++ strL " City '" ++ city ++ strL "' not found."
    else glyphW ++ strL " Error fetching forecast for " ++ city ++ strL ": " ++ e

/-- `WeatherAgent.get_air_quality` (weather_agent.py lines 106-135). -/
def get_air_quality (b : Behavior) (city : Str) : Str :=
  match b.geocode city with
  | .error e =>
    glyphW ++ strL " Error fetching air quality for " ++ city ++ strL ": " ++ e
  | .ok [] => glyphW ++ strL " City '" ++ city ++ strL "' not found."
  | .ok (l :: _) =>
    match b.airData l.lat l.lon with
    | .error e =>
      glyphW ++ strL " Error fetching air quality for " ++ city ++ strL ": " ++ e
    | .ok data =>
      strL "üìç **" ++ l.name.getD city ++ strL ", " ++ l.country.getD [] ++
        strL "**\n\n" ++ b.formatAir data

/-- The recommendations prompt of `get_recommendations` (lines 156-166). -/
def recPrompt (b : Behavior) (data : Str) : Str :=
  strL "Based on this weather data, provide brief, practical recommendations:\n\nWeather Data:\n" ++
    b.dumps data ++
    strL "\n\nProvide:\n1. **What to Wear** (2-3 items)\n2. **Activities** (2-3 suggestions appropriate for this weather)\n3. **Health Tips** (1-2 tips based on conditions)\n\nKeep it concise and friendly!"

/-- `WeatherAgent.get_recommendations` (weather_agent.py lines 141-176). -/
def get_recommendations (b : Behavior) (city : Str) : Str :=
  match b.currentData city with
  | .error e =>
    glyphW ++ strL " Error getting recommendations for " ++ city ++ strL ": " ++ e
  | .ok data =>
    b.formatCurrent data ++ strL "\n\n---\n\n## üéØ Recommendations\n\n" ++
      ai_analyze b (recPrompt b data)

/-- `WeatherAgent.compare_weather` (weather_agent.py lines 182-236). -/
def compare_weather (b : Behavior) (city1 city2 : Str) : Str :=
  match b.currentData city1 with
  | .error e => glyphW ++ strL " Error comparing weather: " ++ e
  | .ok d1 =>
    match b.currentData city2 with
    | .error e => glyphW ++ strL " Error comparing weather: " ++ e
    | .ok d2 => b.compareTable d1 d2

/-- The first entity-extraction prompt of `query` (lines 254-258). -/
def queryCityPrompt (question : Str) : Str :=
  strL "Extract the city name from this weather question. \nIf no specific city is mentioned, respond with \"NONE\".\nOnly respond with the city name or \"NONE\", nothing else.\n\nQuestion: " ++
    question

/-- The answer-generation prompt of `query` (lines 274-282). -/
def queryAnswerPrompt (question context : Str) : Str :=
  strL "You are a friendly weather assistant. Answer this question:\n\nQuestion: " ++
    question ++ strL "\n\nWeather Data (if available):\n" ++ context ++
    strL "\n\nProvide a helpful, conversational answer. If no city was specified and the question needs one, \nask the user which city they're interested in."

/-- `WeatherAgent.query` (weather_agent.py lines 242-288): two AI calls, with
an inner best-effort weather fetch for context. -/
def agent_query (b : Behavior) (question : Str) : Str :=
  let cityResponse := ai_analyze b (queryCityPrompt question)
  let city : Option Str :=
    if (pyStrip cityResponse).map Char.toUpper ≠ strL "NONE" then
      some (pyStrip cityResponse)
    else none
  let context : Str :=
    match city with
    | some c =>
      if c.isEmpty then strL "No specific city mentioned"
      else
        match b.currentData c with
        | .ok data => b.dumps data
        | .error _ => strL "Weather data unavailable"
    | none => strL "No specific city mentioned"
  ai_analyze b (queryAnswerPrompt question context)

/-- The summary AI prompt (weather_agent.py lines 340-345). -/
def summaryPrompt (b : Behavior) (current : Str) : Str :=
  strL "Based on this weather data, provide a brief (2-3 sentence) overall assessment:\n            \nCurrent: " ++
    b.mainOf current ++ strL "\nConditions: " ++ b.descOf current ++
    strL "\n\nIs it a good day to be outside? Any weather concerns?"

/-- `WeatherAgent.get_weather_summary` (weather_agent.py lines 294-358): any
raising sub-call aborts to the glyph-prefixed error; an empty geocoding
result only omits the air-quality section. -/
def get_weather_summary (b : Behavior) (city : Str) : Str :=
  match b.currentData city with
  | .error e =>
    glyphW ++ strL " Error getting weather summary for " ++ city ++ strL ": " ++ e
  | .ok current =>
    match b.forecastData city with
    | .error e =>
      glyphW ++ strL " Error getting weather summary for " ++ city ++ strL ": " ++ e
    | .ok forecast =>
      match b.geocode city with
      | .error e =>
        glyphW ++ strL " Error getting weather summary for " ++ city ++ strL ": " ++ e
      | .ok locs =>
        let head := strL "# üìä Complete Weather Summary" ++ strL "\n" ++
          strL "\n" ++ strL "## Current Conditions" ++ strL "\n" ++
          b.formatCurrent current ++ strL "\n" ++ strL "\n" ++ strL "---" ++
          strL "\n" ++ strL "\n" ++ b.formatForecast forecast 3
        let withAir : Except Str Str :=
          match locs with
          | [] => .ok head
          | l :: _ =>
            match b.airData l.lat l.lon with
            | .error e => .error e
            | .ok air =>
              .ok (head ++ strL "\n" ++ strL "\n" ++ strL "---" ++ strL "\n" ++
                strL "\n" ++ strL "## Air Quality" ++ strL "\n" ++ b.formatAir air)
        match withAir with
        | .error e =>
          glyphW ++ strL " Error getting weather summary for " ++ city ++ strL ": " ++ e
        | .ok body =>
          body ++ strL "\n" ++ strL "\n" ++ strL "---" ++ strL "\n" ++ strL "\n" ++
            strL "## ü§ñ AI Insights" ++ strL "\n" ++
            ai_analyze b (summaryPrompt b current)

/-! ## `agent_executor.py` — the A2A executor

`RequestContext` is a loosely-typed, multi-shaped carrier; `_extract_query`
probes it with `hasattr` checks and `try/except` fallbacks.  The context is
modelled as a record whose fields describe what each probe would find:
`Except.error ()` models an attribute access or method call that raises (the
exception is swallowed by the source), `none` models a missing or falsy
attribute. -/

/-- One entry of a `parts` list: `none` when the part has no `text`
attribute. -/
structure CtxPart where
  text : Option Str

/-- The duck-typed request context seen by `WeatherAgentExecutor`. -/
structure Ctx where
  /-- The `_user_text` override attribute (set by the ServiceNow handler);
  `none` when the attribute is absent. -/
  userText : Option Str
  /-- The `context.get_user_input()` call. -/
  getUserInput : Except Unit Str
  /-- `context.message.parts`: raising access, falsy message, or the parts. -/
  message : Except Unit (Option (List CtxPart))
  /-- `context._message.parts`. -/
  internalMsg : Except Unit (Option (List CtxPart))
  /-- `context.request.message.parts`.  The `task_id` / `context_id`
  constructor arguments of `RequestContext` are omitted from the model:
  `_extract_query` never reads them. -/
  requestMsg : Except Unit (Option (List CtxPart))

/-- The part-scanning loop shared by strategies 3-5: first part whose `text`
attribute exists and is non-empty (`if hasattr(part, 'text') and part.text`). -/
def firstPartText : List CtxPart → Option Str
  | [] => none
  | p :: ps =>
    match p.text with
    | some t => if t.isEmpty then firstPartText ps else some t
    | none => firstPartText ps

/-- A message-parts probe under `try/except`: a raised access or a falsy
message yields nothing, otherwise the part scan result. -/
def tryParts : Except Unit (Option (List CtxPart)) → Option Str
  | .error _ => none
  | .ok none => none
  | .ok (some parts) => firstPartText parts

/-- Strategy 5 then the final `return ""` (agent_executor.py lines 68-79). -/
def extractQ5 (c : Ctx) : Str := (tryParts c.requestMsg).getD []

/-- Strategy 4: the `_message` fallback (lines 59-66). -/
def extractQ4 (c : Ctx) : Str :=
  match tryParts c.internalMsg with
  | some t => t
  | none => extractQ5 c

/-- Strategy 3: the primary `message` fallback (lines 50-57). -/
def extractQ3 (c : Ctx) : Str :=
  match tryParts c.message with
  | some t => t
  | none => extractQ4 c

/-- Strategy 2: `context.get_user_input()` under `try/except` (lines 42-48). -/
def extractQ2 (c : Ctx) : Str :=
  match c.getUserInput with
  | .ok t => if t.isEmpty then extractQ3 c else t
  | .error _ => extractQ3 c

/-- `WeatherAgentExecutor._extract_query` (agent_executor.py lines 35-79). -/
def extract_query (c : Ctx) : Str :=
  match c.userText with
  | some t => if t.isEmpty then extractQ2 c else t
  | none => extractQ2 c

/-- The text each of the five strategies would yield on its own (`none` =
this strategy fails or finds only empty text).  This is the specification
shape of section 4.1: an ordered list of independent probes. -/
def strategyResults (c : Ctx) : List (Option Str) :=
  [ (match c.userText with
     | some t => if t.isEmpty then none else some t
     | none => none),
    (match c.getUserInput with
     | .ok t => if t.isEmpty then none else some t
     | .error _ => none),
    tryParts c.message,
    tryParts c.internalMsg,
    tryParts c.requestMsg ]

/-- Spec §4.1 as a program: first-success short-circuit fold over the five
strategies, empty string when all fail. -/
def specExtract (c : Ctx) : Str := (firstSome id (strategyResults c)).getD []

/-- The help text of `_get_help_message` (agent_executor.py lines 281-327). -/
def helpMessage : Str :=
  strL "# ☀️ Weather AI Agent\n\nI'm your AI-powered weather assistant! Here's what I can do:\n\n## 📋 Available Commands\n\n### 🌡️ Current Weather\nGet current conditions for any city:\n- \"Weather in London\"\n- \"Temperature in Tokyo\"\n- \"New York weather\"\n\n### 📅 Weather Forecast\nGet up to 5-day forecast:\n- \"Forecast for Paris\"\n- \"5 day forecast London\"\n- \"What's the weather tomorrow in Berlin\"\n\n### 💨 Air Quality\nCheck air quality index:\n- \"Air quality in Delhi\"\n- \"AQI Beijing\"\n- \"Pollution in Los Angeles\"\n\n### 👕 Recommendations\nGet clothing and activity suggestions:\n- \"What to wear in London\"\n- \"Should I take an umbrella in Seattle\"\n\n### 🌍 Compare Cities\nCompare weather between two cities:\n- \"Compare London and Paris\"\n- \"Tokyo vs New York weather\"\n\n### 📊 Complete Summary\nGet full weather report:\n- \"Weather summary for Sydney\"\n- \"Complete weather report Tokyo\"\n\n### 💬 Natural Language\nAsk anything about weather:\n- \"Is it a good day for hiking in Denver?\"\n- \"Will it rain this weekend in Miami?\"\n\n---\n**Tip:** Just type a city name for quick current weather!\n"

/-- The failure glyph of the dispatch `except` branch in `execute`
(agent_executor.py line 264). -/
def glyphX : Str := strL "\u274c"

/-- The skill routing of `execute` (agent_executor.py lines 224-261): one
branch per intent variant, calling the corresponding WeatherAgent skill. -/
def dispatch (b : Behavior) : Intent → Str
  | .current city => get_current_weather b city
  | .forecast city days => get_forecast b city days
  | .airQuality city => get_air_quality b city
  | .recommendations city => get_recommendations b city
  | .compare c1 c2 => compare_weather b c1 c2
  | .summary city => get_weather_summary b city
  | .query question => agent_query b question

/-- `WeatherAgentExecutor.execute` (agent_executor.py lines 200-267): the
list of texts enqueued on the event queue.  The `try/except` around the
dispatch cannot fire in the model because every skill is total (each skill
already converts its capability failures to text), mirroring the source
where each skill catches its own exceptions. -/
def execute (b : Behavior) (c : Ctx) : List Str :=
  let query := extract_query c
  if query.isEmpty || (pyStrip query).isEmpty then [helpMessage]
  else [dispatch b (parse_intent query)]

/-! ## `servicenow_handler.py` — the dual-protocol JSON-RPC bridge

Wire payloads are modelled by a small JSON type `J`.  A Python operation that
raises (``.get`` on a non-dict, iterating a non-list, pydantic validation) is
modelled with `Except Str`, carrying `str(e)`; `uuid.uuid4()` results are
passed in as parameters. -/

inductive J where
  | null
  | bool (b : Bool)
  | num (n : Int)
  | str (s : Str)
  | arr (xs : List J)
  | obj (kvs : List (Str × J))

/-- Association lookup in a JSON object (parsed JSON has unique keys). -/
def jLookup : List (Str × J) → Str → Option J
  | [], _ => none
  | (k, v) :: rest, key => if k = key then some v else jLookup rest key

/-- Python truthiness of a JSON value. -/
def jFalsy : J → Bool
  | .null => true
  | .bool b => !b
  | .num n => n = 0
  | .str s => s.isEmpty
  | .arr xs => xs.isEmpty
  | .obj kvs => kvs.isEmpty

/-- Python `a or b` on an optional JSON value (`dict.get` returns `None` for
a missing key, which is falsy). -/
def pyOrJ (x : Option J) (y : J) : J :=
  match x with
  | some v => if jFalsy v then y else v
  | none => y

/-- The Python type name of a value, for `AttributeError` texts. -/
def jTypeName : J → Str
  | .null => strL "NoneType"
  | .bool _ => strL "bool"
  | .num _ => strL "int"
  | .str _ => strL "str"
  | .arr _ => strL "list"
  | .obj _ => strL "dict"

/-- `str(e)` of the `AttributeError` raised by `x.get(...)` on a non-dict. -/
def noGetMsg (x : J) : Str :=
  strL "'" ++ jTypeName x ++ strL "' object has no attribute 'get'"

/-- `x.get(key)`: raises `AttributeError` unless `x` is a dict. -/
def jGet (x : J) (key : Str) : Except Str (Option J) :=
  match x with
  | .obj kvs => .ok (jLookup kvs key)
  | _ => .error (noGetMsg x)

def natToStrAux : Nat → Nat → Str
  | _, 0 => []
  | n, fuel + 1 =>
    if n < 10 then [Char.ofNat (48 + n)]
    else natToStrAux (n / 10) fuel ++ [Char.ofNat (48 + n % 10)]

def natToStr (n : Nat) : Str := natToStrAux n (n + 1)

/-- Python `str(...)` of a JSON value, used only inside error-message texts
(container rendering is approximate; no claim depends on it). -/
def jRender : J → Str
  | .null => strL "None"
  | .bool b => if b then strL "True" else strL "False"
  | .num n => if n < 0 then strL "-" ++ natToStr n.natAbs else natToStr n.natAbs
  | .str s => s
  | .arr _ => strL "[...]"
  | .obj _ => strL "\x7b...\x7d"

/-- `ServiceNowCompatibleHandler._error_response` (servicenow_handler.py
lines 286-295). -/
def errorResponse (rpcId : J) (code : Int) (message : Str) : J :=
  .obj [ (strL "jsonrpc", .str (strL "2.0")),
         (strL "id", rpcId),
         (strL "error", .obj [ (strL "code", .num code),
                               (strL "message", .str message) ]) ]

/-- `part.get("type") or part.get("kind")` (line 114). -/
def typeOrKind (part : J) : Except Str (Option J) :=
  match jGet part (strL "type") with
  | .error e => .error e
  | .ok t1 =>
    match jGet part (strL "kind") with
    | .error e => .error e
    | .ok t2 => .ok (match t1 with
        | some v => if jFalsy v then t2 else some v
        | none => t2)

/-- `part_type == "text"`. -/
def isTextTag : Option J → Bool
  | some (.str s) => s = strL "text"
  | _ => false

/-- The part scan of `_handle_tasks_send` (servicenow_handler.py lines
109-117): starting from `text_content = ""`, take the `text` field (default
`""`) of the first part whose `type`-or-`kind` is `"text"` and `break`. -/
def scanParts : List J → Except Str J
  | [] => .ok (.str [])
  | part :: rest =>
    match typeOrKind part with
    | .error e => .error e
    | .ok t =>
      if isTextTag t then
        match part with
        | .obj kvs => .ok ((jLookup kvs (strL "text")).getD (.str []))
        | _ => .error (noGetMsg part)
      else scanParts rest

/-- The context built by `_create_request_context` (lines 262-284): the
override `_user_text` is set, `_message` holds one `TextPart` with the same
text, the `RequestContext` itself carries no message, and the patched
`get_user_input` (lines 301-315) returns `_user_text` when truthy and
otherwise falls back to the SDK original, which yields `""` on a
message-less context — in both cases the extracted text. -/
def ctxOf (text : Str) : Ctx :=
  { userText := some text,
    getUserInput := .ok text,
    message := .ok none,
    internalMsg := .ok (some [{ text := some text }]),
    requestMsg := .error () }

/-- The event-sink drain of `_handle_tasks_send` (lines 130-178): each event
is one agent message carrying one text; the introspection cascade yields the
first non-empty text, `""` when none. -/
def responseTextOf : List Str → Str
  | [] => []
  | t :: rest => if t.isEmpty then responseTextOf rest else t

/-- The success payload of `_handle_tasks_send` (lines 182-211). -/
def tasksSendResponse (rpcId taskId sessionId : J) (responseText : Str) : J :=
  .obj [ (strL "jsonrpc", .str (strL "2.0")),
         (strL "id", rpcId),
         (strL "result", .obj [
           (strL "id", taskId),
           (strL "sessionId", sessionId),
           (strL "status", .obj [ (strL "state", .str (strL "completed")) ]),
           (strL "message", .obj [
             (strL "role", .str (strL "agent")),
             (strL "parts", .arr [ .obj [ (strL "type", .str (strL "text")),
                                          (strL "text", .str responseText) ] ]) ]),
           (strL "artifacts", .arr [ .obj [
             (strL "parts", .arr [ .obj [ (strL "type", .str (strL "text")),
                                          (strL "text", .str responseText) ] ]) ] ]) ]) ]

/-- The `try` body of `_handle_tasks_send` (lines 104-215): either the
success response or the exception the body raises. -/
def tasksSendInner (b : Behavior) (fresh1 fresh2 : Str) (rpcId : J)
    (params : J) : Except Str J :=
  match jGet params (strL "id") with
    | .error e => .error e
    | .ok idv =>
      let taskId : J := idv.getD (.str fresh1)
      match jGet params (strL "sessionId") with
      | .error e => .error e
      | .ok sv =>
        let sessionId : J := pyOrJ sv (.str fresh2)
        match jGet params (strL "message") with
        | .error e => .error e
        | .ok mv =>
          let messageData : J := mv.getD (.obj [])
          match jGet messageData (strL "parts") with
          | .error e => .error e
          | .ok pv =>
            let parts : J := pv.getD (.arr [])
            match parts with
            | .arr l =>
              match scanParts l with
              | .error e => .error e
              | .ok tv =>
                match tv with
                | .str text =>
                  let events := execute b (ctxOf text)
                  .ok (tasksSendResponse rpcId taskId sessionId
                    (responseTextOf events))
                | _ =>
                  -- `TextPart(text=...)` pydantic validation rejects a
                  -- non-string text (message abbreviated)
                  .error (strL "validation error for TextPart")
            | .str [] => -- iterating `""` runs the loop zero times
              let events := execute b (ctxOf [])
              .ok (tasksSendResponse rpcId taskId sessionId
                (responseTextOf events))
            | other =>
              -- iterating any other non-list raises (`TypeError`, or
              -- `AttributeError` on the elements; message approximate)
              .error (strL "'" ++ jTypeName other ++ strL "' object is not iterable")

/-- `ServiceNowCompatibleHandler._handle_tasks_send` (lines 90-221).
`fresh1` / `fresh2` stand for the two possible `uuid.uuid4()` draws.  Any
exception inside the body is caught and turned into a `-32603`
"Execution error" response. -/
def handle_tasks_send (b : Behavior) (fresh1 fresh2 : Str) (rpcId : J)
    (params : J) : J :=
  match tasksSendInner b fresh1 fresh2 rpcId params with
  | .ok resp => resp
  | .error e => errorResponse rpcId (-32603) (strL "Execution error: " ++ e)

/-- `ServiceNowCompatibleHandler._handle_message_send` (lines 223-232):
rebuild vendor-shaped params — a fresh random id, `sessionId` taken from
`params.contextId`, the message copied unchanged — and delegate.  No inner
`try`: a raising `params.get` propagates to `handle_request`. -/
def handle_message_send (b : Behavior) (freshConv fresh1 fresh2 : Str)
    (rpcId : J) (params : J) : Except Str J :=
  match jGet params (strL "contextId") with
  | .error e => .error e
  | .ok ctxIdv =>
    match jGet params (strL "message") with
    | .error e => .error e
    | .ok mv =>
      let converted : J := .obj [
        (strL "id", .str freshConv),
        (strL "sessionId", ctxIdv.getD .null),
        (strL "message", mv.getD (.obj [])) ]
      .ok (handle_tasks_send b fresh1 fresh2 rpcId converted)

/-- The synthetic status payload returned by `tasks/get` and `tasks/cancel`. -/
def taskStatusResponse (rpcId taskIdv : J) (state : Str) : J :=
  .obj [ (strL "jsonrpc", .str (strL "2.0")),
         (strL "id", rpcId),
         (strL "result", .obj [
           (strL "id", taskIdv),
           (strL "status", .obj [ (strL "state", .str state) ]) ]) ]

/-- `_handle_tasks_get` (lines 234-246); no inner `try`. -/
def handle_tasks_get (rpcId : J) (params : J) : Except Str J :=
  match jGet params (strL "id") with
  | .error e => .error e
  | .ok idv => .ok (taskStatusResponse rpcId (idv.getD .null) (strL "completed"))

/-- `_handle_tasks_cancel` (lines 248-260); no inner `try`. -/
def handle_tasks_cancel (rpcId : J) (params : J) : Except Str J :=
  match jGet params (strL "id") with
  | .error e => .error e
  | .ok idv => .ok (taskStatusResponse rpcId (idv.getD .null) (strL "canceled"))

/-- The string content of the `method` field, used for the `==` dispatch
(a non-string method compares unequal to every method name). -/
def methodStrOf (method : J) : Option Str :=
  match method with
  | .str m => some m
  | _ => none

/-- `ServiceNowCompatibleHandler.handle_request` (servicenow_handler.py
lines 51-88).  The inbound value is the result of `json.loads`: `.error`
for a malformed body.  On a non-dict body the first `.get` raises before
`jsonrpc_id` is assigned, so the `-32603` response carries a null id;
inside a method handler the already-extracted id is echoed. -/
def handle_request (b : Behavior) (freshConv fresh1 fresh2 : Str)
    (inbound : Except Str J) : J :=
  match inbound with
  | .error e => errorResponse .null (-32700) (strL "Parse error: " ++ e)
  | .ok data =>
    match data with
    | .obj kvs =>
      let rpcId : J := (jLookup kvs (strL "id")).getD .null
      let method : J := (jLookup kvs (strL "method")).getD (.str [])
      let params : J := (jLookup kvs (strL "params")).getD (.obj [])
      let asStr : Option Str := methodStrOf method
      if asStr = some (strL "tasks/send") then
        handle_tasks_send b fresh1 fresh2 rpcId params
      else if asStr = some (strL "message/send") then
        match handle_message_send b freshConv fresh1 fresh2 rpcId params with
        | .ok resp => resp
        | .error e => errorResponse rpcId (-32603) (strL "Internal error: " ++ e)
      else if asStr = some (strL "tasks/get") then
        match handle_tasks_get rpcId params with
        | .ok resp => resp
        | .error e => errorResponse rpcId (-32603) (strL "Internal error: " ++ e)
      else if asStr = some (strL "tasks/cancel") then
        match handle_tasks_cancel rpcId params with
        | .ok resp => resp
        | .error e => errorResponse rpcId (-32603) (strL "Internal error: " ++ e)
      else
        errorResponse rpcId (-32601) (strL "Method not found: " ++ jRender method)
    | other =>
      errorResponse .null (-32603) (strL "Internal error: " ++ noGetMsg other)

/-- Field access along a path of keys in a JSON object tree. -/
def getPath (j : J) (p : List Str) : Option J :=
  p.foldl (fun acc k =>
    match acc with
    | some (.obj kvs) => jLookup kvs k
    | _ => none) (some j)

/-! ## Shared lemmas -/

theorem isPrefixOf_self_append (w t : Str) : w.isPrefixOf (w ++ t) = true := by
  induction w with
  | nil => simp [List.isPrefixOf]
  | cons c w ih => simp [List.isPrefixOf, ih]

theorem containsSub_of_isPrefixOf (s w : Str) (h : w.isPrefixOf s = true) :
    containsSub s w = true := by
  cases s with
  | nil =>
    cases w with
    | nil => rfl
    | cons c t => simp [List.isPrefixOf] at h
  | cons c t => simp [containsSub, h]

theorem containsSub_append_left (pre s w : Str) (h : containsSub s w = true) :
    containsSub (pre ++ s) w = true := by
  induction pre with
  | nil => simpa using h
  | cons c t ih => simp [containsSub, ih]

theorem containsSub_self_append (s t : Str) : containsSub (s ++ t) s = true :=
  containsSub_of_isPrefixOf _ _ (isPrefixOf_self_append s t)

/-- A concrete behaviour record used by witnesses: every capability raises a
"404" not-found error, the AI echoes its prompt, formatters are identities. -/
def bx : Behavior :=
  { currentData := fun _ => .error (strL "HTTP 404 not found"),
    forecastData := fun _ => .error (strL "HTTP 404 not found"),
    geocode := fun _ => .ok [],
    airData := fun _ _ => .error (strL "boom"),
    ai := fun p => .ok p,
    formatCurrent := fun d => d,
    formatForecast := fun d _ => d,
    formatAir := fun d => d,
    dumps := fun d => d,
    compareTable := fun d1 d2 => d1 ++ d2,
    mainOf := fun d => d,
    descOf := fun d => d }

/-! ## Claim C5 — the query extractor as a first-success strategy fold -/

/-- C5: for every inbound context object, whatever its shape, `_extract_query`
never raises (it is a total function of the context model); it is exactly the
first-success short-circuit fold over the five strategies in strict order —
override text field, standard accessor, primary message parts, internal
`_message` parts, `request.params` message parts — swallowing every failing
probe and returning the empty string when all five fail. -/
theorem extract_query_is_strategy_fold (c : Ctx) : extract_query c = specExtract c := by
  obtain ⟨ut, gui, msg, imsg, rmsg⟩ := c
  simp only [extract_query, extractQ2, extractQ3, extractQ4, extractQ5,
    specExtract, strategyResults, firstSome, id]
  cases ut with
  | none =>
    cases gui with
    | error u =>
      cases hm : tryParts msg with
      | none =>
        cases him : tryParts imsg with
        | none => cases hrm : tryParts rmsg <;> simp [hm, him, hrm]
        | some t => simp [hm, him]
      | some t => simp [hm]
    | ok t =>
      cases ht : t.isEmpty with
      | true =>
        cases hm : tryParts msg with
        | none =>
          cases him : tryParts imsg with
          | none => cases hrm : tryParts rmsg <;> simp [ht, hm, him, hrm]
          | some u => simp [ht, hm, him]
        | some u => simp [ht, hm]
      | false => simp [ht]
  | some t =>
    cases ht : t.isEmpty with
    | true =>
      cases gui with
      | error u =>
        cases hm : tryParts msg with
        | none =>
          cases him : tryParts imsg with
          | none => cases hrm : tryParts rmsg <;> simp [ht, hm, him, hrm]
          | some u => simp [ht, hm, him]
        | some u => simp [ht, hm]
      | ok u =>
        cases hu : u.isEmpty with
        | true =>
          cases hm : tryParts msg with
          | none =>
            cases him : tryParts imsg with
            | none => cases hrm : tryParts rmsg <;> simp [ht, hu, hm, him, hrm]
            | some v => simp [ht, hu, hm, him]
          | some v => simp [ht, hu, hm]
        | false => simp [ht, hu]
    | false => simp [ht]

/-! ## Claim C8 — empty query short-circuits to the help message -/

/-- C8: whenever the extracted query is empty or whitespace-only, `execute`
enqueues exactly the static help message and returns; no intent is classified
and no Weather Agent skill is invoked — the output is independent of the
agent behaviour. -/
theorem execute_empty_query_help (b b2 : Behavior) (c : Ctx)
    (h : pyStrip (extract_query c) = []) :
    execute b c = [helpMessage] ∧ execute b2 c = execute b c := by
  have hg : (pyStrip (extract_query c)).isEmpty = true := by simp [h]
  constructor <;> simp [execute, hg]

/-- Witness for C8: the whitespace-only query built by the protocol bridge. -/
theorem execute_empty_query_help_witness :
    execute bx (ctxOf (strL "   ")) = [helpMessage] :=
  (execute_empty_query_help bx bx (ctxOf (strL "   ")) (by decide)).1

/-! ## Claim C6 — compare has top priority -/

/-- C6: the compare rule has top priority in `_parse_intent`: whenever one of
the three compare patterns matches, the classifier returns the compare intent
with both captured groups trimmed — whatever other keywords the text
contains — and on `"Compare London and Paris"` the result is
`compare("London", "Paris")`. -/
theorem compare_top_priority :
    (∀ (q c1 c2 : Str), compareMatch q = some (c1, c2) →
      parse_intent q = Intent.compare (pyStrip c1) (pyStrip c2)) ∧
    parse_intent (strL "Compare London and Paris") =
      Intent.compare (strL "London") (strL "Paris") := by
  constructor
  · intro q c1 c2 h
    simp [parse_intent, h]
  · decide

/-- Witness for C6: the compare-pattern hypothesis discharged on the concrete
scenario input. -/
theorem compare_top_priority_witness :
    parse_intent (strL "Compare London and Paris") =
      Intent.compare (pyStrip (strL "London")) (pyStrip (strL "Paris")) :=
  compare_top_priority.1 (strL "Compare London and Paris") (strL "London")
    (strL "Paris") (by decide)

/-! ## Claim C9 — bare city fallback -/

/-- C9: an utterance of at most 3 words with an extractable city that matches
no compare pattern and none of the skill keyword groups classifies as
`current` with that city; in particular `"Tokyo"` yields `current("Tokyo")`. -/
theorem bare_city_current :
    (∀ (q city : Str), compareMatch q = none →
      containsAnySub (pyStrip (lowerStr q)) forecastWords = false →
      containsAnySub (pyStrip (lowerStr q)) airWords = false →
      containsAnySub (pyStrip (lowerStr q)) recommendWords = false →
      containsAnySub (pyStrip (lowerStr q)) summaryWords = false →
      containsAnySub (pyStrip (lowerStr q)) currentWords = false →
      extract_city q = some city → (pySplit q).length ≤ 3 →
      parse_intent q = Intent.current city) ∧
    parse_intent (strL "Tokyo") = Intent.current (strL "Tokyo") := by
  constructor
  · intro q city hc h1 h2 h3 h4 h5 hcity hlen
    simp [parse_intent, hc, h1, h2, h3, h4, h5, hcity, hlen]
  · decide

/-- Witness for C9: all hypotheses discharged on the bare input `"Tokyo"`. -/
theorem bare_city_current_witness :
    parse_intent (strL "Tokyo") = Intent.current (strL "Tokyo") :=
  bare_city_current.1 (strL "Tokyo") (strL "Tokyo") (by decide) (by decide)
    (by decide) (by decide) (by decide) (by decide) (by decide) (by decide)

/-! ## Claim C10 — the tasks/send part scan -/

/-- C10: in the `tasks/send` part scan, the extracted text is the `text`
field of the first part whose `type`-or-`kind` equals `"text"`, defaulting to
the empty string when that part has no `text` field; the scan stops at that
part, so later text-typed parts are never consulted; and with no text-typed
part at all the extracted text is empty. -/
theorem part_scan_first_text :
    (∀ (pre post : List J) (kvs : List (Str × J)) (tp : Option J),
      (∀ q ∈ pre, ∃ t, typeOrKind q = Except.ok t ∧ isTextTag t = false) →
      typeOrKind (J.obj kvs) = Except.ok tp → isTextTag tp = true →
      scanParts (pre ++ J.obj kvs :: post) =
        Except.ok ((jLookup kvs (strL "text")).getD (J.str []))) ∧
    (∀ parts : List J,
      (∀ q ∈ parts, ∃ t, typeOrKind q = Except.ok t ∧ isTextTag t = false) →
      scanParts parts = Except.ok (J.str [])) := by
  constructor
  · intro pre post kvs tp hpre htk htag
    induction pre with
    | nil => simp [scanParts, htk, htag]
    | cons q rest ih =>
      obtain ⟨t, hqt, hqf⟩ := hpre q (by simp)
      have := ih (fun x hx => hpre x (by simp [hx]))
      simp [scanParts, hqt, hqf, this]
  · intro parts hparts
    induction parts with
    | nil => simp [scanParts]
    | cons q rest ih =>
      obtain ⟨t, hqt, hqf⟩ := hparts q (by simp)
      have := ih (fun x hx => hparts x (by simp [hx]))
      simp [scanParts, hqt, hqf, this]

/-- Witness for C10: a first text-typed part with no `text` field yields `""`
even though a later text-typed part carries non-empty text. -/
theorem part_scan_first_text_witness :
    scanParts ([] ++ J.obj [(strL "type", J.str (strL "text"))] ::
        [J.obj [(strL "kind", J.str (strL "text")),
                (strL "text", J.str (strL "later"))]]) =
      Except.ok (J.str []) :=
  part_scan_first_text.1 [] _ _ (some (J.str (strL "text")))
    (by intro q hq; cases hq) rfl rfl

/-! ## Claim C3 — dispatch converts every failure to glyph-prefixed text -/

theorem glyph_prefix_append (t : Str) : glyphW.isPrefixOf (glyphW ++ t) = true :=
  isPrefixOf_self_append _ _

/-- C3: the dispatch step never raises — it is a total function routing each
intent to its skill — and every failing capability call is converted into a
response string prefixed with the failure glyph; a `get_current_weather`
failure whose message carries the 404 marker yields the distinct "not found"
phrasing, naming the city, different from the generic error phrasing. -/
theorem dispatch_error_handling (b : Behavior) :
    (∀ city, dispatch b (Intent.current city) = get_current_weather b city) ∧
    (∀ city e, b.currentData city = .error e → containsSub e (strL "404") = true →
      get_current_weather b city = currentNotFoundMsg city ∧
      containsSub (currentNotFoundMsg city) (strL "not found") = true ∧
      containsSub (currentNotFoundMsg city) city = true ∧
      currentNotFoundMsg city ≠ currentErrorMsg city e) ∧
    (∀ city e, b.currentData city = .error e →
      glyphW.isPrefixOf (get_current_weather b city) = true) ∧
    (∀ city days e, b.forecastData city = .error e →
      glyphW.isPrefixOf (get_forecast b city days) = true) ∧
    (∀ city e, b.geocode city = .error e →
      glyphW.isPrefixOf (get_air_quality b city) = true) ∧
    (∀ city, b.geocode city = .ok [] →
      glyphW.isPrefixOf (get_air_quality b city) = true) ∧
    (∀ city l rest e, b.geocode city = .ok (l :: rest) →
      b.airData l.lat l.lon = .error e →
      glyphW.isPrefixOf (get_air_quality b city) = true) ∧
    (∀ city e, b.currentData city = .error e →
      glyphW.isPrefixOf (get_recommendations b city) = true) ∧
    (∀ c1 c2 e, b.currentData c1 = .error e →
      glyphW.isPrefixOf (compare_weather b c1 c2) = true) ∧
    (∀ c1 c2 d1 e, b.currentData c1 = .ok d1 → b.currentData c2 = .error e →
      glyphW.isPrefixOf (compare_weather b c1 c2) = true) ∧
    (∀ city e, b.currentData city = .error e →
      glyphW.isPrefixOf (get_weather_summary b city) = true) ∧
    (∀ city d e, b.currentData city = .ok d → b.forecastData city = .error e →
      glyphW.isPrefixOf (get_weather_summary b city) = true) ∧
    (∀ city d1 d2 e, b.currentData city = .ok d1 → b.forecastData city = .ok d2 →
      b.geocode city = .error e →
      glyphW.isPrefixOf (get_weather_summary b city) = true) ∧
    (∀ city d1 d2 l rest e, b.currentData city = .ok d1 →
      b.forecastData city = .ok d2 → b.geocode city = .ok (l :: rest) →
      b.airData l.lat l.lon = .error e →
      glyphW.isPrefixOf (get_weather_summary b city) = true) := by
  refine ⟨fun city => rfl, ?_, ?_, ?_, ?_, ?_, ?_, ?_, ?_, ?_, ?_, ?_, ?_, ?_⟩
  · intro city e he h404
    refine ⟨by simp [get_current_weather, he, h404], ?_, ?_, ?_⟩
    · exact containsSub_append_left _ _ _ (by decide)
    · have : currentNotFoundMsg city =
          (glyphW ++ strL " City '") ++ (city ++
            strL "' not found. Please check the spelling or try adding a country code (e.g., 'Paris,FR').") := by
        simp [currentNotFoundMsg, List.append_assoc]
      rw [this]
      exact containsSub_append_left _ _ _ (containsSub_self_append _ _)
    · intro h
      have e1 : currentNotFoundMsg city = '‚' :: 'ù' :: 'å' :: ' ' :: 'C' ::
          (strL "ity '" ++ (city ++
            strL "' not found. Please check the spelling or try adding a country code (e.g., 'Paris,FR').")) := rfl
      have e2 : currentErrorMsg city e = '‚' :: 'ù' :: 'å' :: ' ' :: 'E' ::
          (((strL "rror fetching weather for " ++ city) ++ strL ": ") ++ e) := rfl
      rw [e1, e2] at h
      simp at h
  · intro city e he
    cases h404 : containsSub e (strL "404") <;>
      simp [get_current_weather, he, h404, currentNotFoundMsg, currentErrorMsg,
        List.append_assoc, glyph_prefix_append]
  · intro city days e he
    cases h404 : containsSub e (strL "404") <;>
      simp [get_forecast, he, h404, List.append_assoc, glyph_prefix_append]
  · intro city e he
    simp [get_air_quality, he, List.append_assoc, glyph_prefix_append]
  · intro city he
    simp [get_air_quality, he, List.append_assoc, glyph_prefix_append]
  · intro city l rest e hg ha
    simp [get_air_quality, hg, ha, List.append_assoc, glyph_prefix_append]
  · intro city e he
    simp [get_recommendations, he, List.append_assoc, glyph_prefix_append]
  · intro c1 c2 e he
    simp [compare_weather, he, List.append_assoc, glyph_prefix_append]
  · intro c1 c2 d1 e h1 h2
    simp [compare_weather, h1, h2, List.append_assoc, glyph_prefix_append]
  · intro city e he
    simp [get_weather_summary, he, List.append_assoc, glyph_prefix_append]
  · intro city d e h1 h2
    simp [get_weather_summary, h1, h2, List.append_assoc, glyph_prefix_append]
  · intro city d1 d2 e h1 h2 h3
    simp [get_weather_summary, h1, h2, h3, List.append_assoc, glyph_prefix_append]
  · intro city d1 d2 l rest e h1 h2 h3 h4
    simp [get_weather_summary, h1, h2, h3, h4, List.append_assoc, glyph_prefix_append]

/-- Witness for C3: under the all-404 behaviour `bx`, dispatching the current
intent for Lyon produces exactly the "not found" phrasing. -/
theorem dispatch_error_handling_witness :
    get_current_weather bx (strL "Lyon") = currentNotFoundMsg (strL "Lyon") ∧
    glyphW.isPrefixOf (get_forecast bx (strL "Lyon") 3) = true :=
  ⟨((dispatch_error_handling bx).2.1 (strL "Lyon") (strL "HTTP 404 not found")
      rfl (by decide)).1,
   (dispatch_error_handling bx).2.2.2.1 (strL "Lyon") 3 (strL "HTTP 404 not found") rfl⟩

/-! ## Claims C1/C4 — handler observations and shape lemmas -/

/-- The `error.code` of a JSON-RPC response, when it is an error response. -/
def errorCodeOf (j : J) : Option Int :=
  match getPath j [strL "error", strL "code"] with
  | some (.num n) => some n
  | _ => none

/-- Whether a JSON-RPC response carries a `result` field. -/
def hasResult (j : J) : Bool := (getPath j [strL "result"]).isSome

/-- The `result.message` object of the `tasks/send` success payload. -/
def msgObjOf (txt : Str) : J :=
  .obj [ (strL "role", .str (strL "agent")),
         (strL "parts", .arr [ .obj [ (strL "type", .str (strL "text")),
                                      (strL "text", .str txt) ] ]) ]

/-- What `result.message` of a `tasks/send` reply is, as a function of the
message param alone: `none` when the body raises (no `result` at all). -/
def msgFieldOf (b : Behavior) (md : J) : Option J :=
  match jGet md (strL "parts") with
  | .error _ => none
  | .ok pv =>
    match pv.getD (J.arr []) with
    | .arr l =>
      match scanParts l with
      | .error _ => none
      | .ok tv =>
        match tv with
        | .str text => some (msgObjOf (responseTextOf (execute b (ctxOf text))))
        | _ => none
    | .str [] => some (msgObjOf (responseTextOf (execute b (ctxOf []))))
    | _ => none

theorem errorCodeOf_errorResponse (rid : J) (code : Int) (m : Str) :
    errorCodeOf (errorResponse rid code m) = some code := rfl

theorem errorCodeOf_tasksSendResponse (rid t s : J) (txt : Str) :
    errorCodeOf (tasksSendResponse rid t s txt) = none := rfl

theorem errorCodeOf_taskStatusResponse (rid tid : J) (st : Str) :
    errorCodeOf (taskStatusResponse rid tid st) = none := rfl

theorem hasResult_tasksSendResponse (rid t s : J) (txt : Str) :
    hasResult (tasksSendResponse rid t s txt) = true := rfl

theorem hasResult_taskStatusResponse (rid tid : J) (st : Str) :
    hasResult (taskStatusResponse rid tid st) = true := rfl

theorem msgField_tasksSendResponse (rid t s : J) (txt : Str) :
    getPath (tasksSendResponse rid t s txt) [strL "result", strL "message"] =
      some (msgObjOf txt) := rfl

theorem msgField_errorResponse (rid : J) (code : Int) (m : Str) :
    getPath (errorResponse rid code m) [strL "result", strL "message"] = none := rfl

/-- Every success of the `tasks/send` body is the vendor-shaped response. -/
theorem tasksSendInner_ok_shape (b : Behavior) (f1 f2 : Str) (rid params r : J)
    (h : tasksSendInner b f1 f2 rid params = .ok r) :
    ∃ t s txt, r = tasksSendResponse rid t s txt := by
  unfold tasksSendInner at h
  repeat' first
    | (split at h)
    | (dsimp only at h)
  all_goals first
    | (exact ⟨_, _, _, (Except.ok.inj h).symm⟩)
    | (cases h)

/-- `_handle_tasks_send` returns either the vendor-shaped success response or
a `-32603` execution error echoing the request id. -/
theorem handle_tasks_send_shape (b : Behavior) (f1 f2 : Str) (rid params : J) :
    (∃ t s txt, handle_tasks_send b f1 f2 rid params = tasksSendResponse rid t s txt) ∨
    (∃ m, handle_tasks_send b f1 f2 rid params = errorResponse rid (-32603) m) := by
  unfold handle_tasks_send
  cases h : tasksSendInner b f1 f2 rid params with
  | ok r =>
    obtain ⟨t, s, txt, rfl⟩ := tasksSendInner_ok_shape b f1 f2 rid params r h
    exact .inl ⟨t, s, txt, rfl⟩
  | error e => exact .inr ⟨_, rfl⟩

/-- Every success of `_handle_message_send` is a delegated `tasks/send`. -/
theorem handle_message_send_ok_shape (b : Behavior) (fc f1 f2 : Str)
    (rid params r : J) (h : handle_message_send b fc f1 f2 rid params = .ok r) :
    ∃ cp, r = handle_tasks_send b f1 f2 rid cp := by
  unfold handle_message_send at h
  repeat' first
    | (split at h)
    | (dsimp only at h)
  all_goals first
    | (exact ⟨_, (Except.ok.inj h).symm⟩)
    | (cases h)

theorem handle_tasks_get_ok_shape (rid params r : J)
    (h : handle_tasks_get rid params = .ok r) :
    ∃ tid, r = taskStatusResponse rid tid (strL "completed") := by
  unfold handle_tasks_get at h
  repeat' first
    | (split at h)
    | (dsimp only at h)
  all_goals first
    | (exact ⟨_, (Except.ok.inj h).symm⟩)
    | (cases h)

theorem handle_tasks_cancel_ok_shape (rid params r : J)
    (h : handle_tasks_cancel rid params = .ok r) :
    ∃ tid, r = taskStatusResponse rid tid (strL "canceled") := by
  unfold handle_tasks_cancel at h
  repeat' first
    | (split at h)
    | (dsimp only at h)
  all_goals first
    | (exact ⟨_, (Except.ok.inj h).symm⟩)
    | (cases h)

/-- The `result.message` payload of a `tasks/send` reply depends only on the
`message` param (and the agent behaviour): the task id, session id and fresh
uuids never reach it. -/
theorem tasks_send_message_of_obj (b : Behavior) (f1 f2 : Str) (rid : J)
    (kvs : List (Str × J)) :
    getPath (handle_tasks_send b f1 f2 rid (J.obj kvs))
        [strL "result", strL "message"] =
      msgFieldOf b ((jLookup kvs (strL "message")).getD (J.obj [])) := by
  have h1 : tasksSendInner b f1 f2 rid (J.obj kvs) =
      (match jGet ((jLookup kvs (strL "message")).getD (J.obj [])) (strL "parts") with
       | .error e => .error e
       | .ok pv =>
         match pv.getD (J.arr []) with
         | .arr l =>
           match scanParts l with
           | .error e => .error e
           | .ok tv =>
             match tv with
             | .str text =>
               .ok (tasksSendResponse rid ((jLookup kvs (strL "id")).getD (.str f1))
                 (pyOrJ (jLookup kvs (strL "sessionId")) (.str f2))
                 (responseTextOf (execute b (ctxOf text))))
             | _ => .error (strL "validation error for TextPart")
         | .str [] =>
           .ok (tasksSendResponse rid ((jLookup kvs (strL "id")).getD (.str f1))
             (pyOrJ (jLookup kvs (strL "sessionId")) (.str f2))
             (responseTextOf (execute b (ctxOf []))))
         | other =>
           .error (strL "'" ++ jTypeName other ++ strL "' object is not iterable")) := rfl
  cases hp : jGet ((jLookup kvs (strL "message")).getD (J.obj [])) (strL "parts") with
  | error e =>
    simp [handle_tasks_send, h1, hp, msgFieldOf, msgField_errorResponse]
  | ok pv =>
    cases hv : pv.getD (J.arr []) with
    | null =>
      simp [handle_tasks_send, h1, hp, hv, msgFieldOf, msgField_errorResponse]
    | bool x =>
      simp [handle_tasks_send, h1, hp, hv, msgFieldOf, msgField_errorResponse]
    | num x =>
      simp [handle_tasks_send, h1, hp, hv, msgFieldOf, msgField_errorResponse]
    | obj x =>
      simp [handle_tasks_send, h1, hp, hv, msgFieldOf, msgField_errorResponse]
    | arr l =>
      cases hs : scanParts l with
      | error e =>
        simp [handle_tasks_send, h1, hp, hv, hs, msgFieldOf, msgField_errorResponse]
      | ok tv =>
        cases tv <;>
          simp [handle_tasks_send, h1, hp, hv, hs, msgFieldOf,
            msgField_errorResponse, msgField_tasksSendResponse]
    | str s =>
      cases s <;>
        simp [handle_tasks_send, h1, hp, hv, msgFieldOf,
          msgField_errorResponse, msgField_tasksSendResponse]

/-! ## Claim C1 — message/send delegates to tasks/send -/

/-- C1: a `message/send` request whose params carry a message and a contextId
is rebuilt into vendor-shaped params — fresh random id, `sessionId` :=
`contextId`, the message copied unchanged — and delegated to the `tasks/send`
handler; consequently its reply carries exactly the same `result.message`
payload as a `tasks/send` request carrying the same message, whatever task
id, session id or uuid draws the vendor request uses. -/
theorem message_send_equiv_tasks_send (b : Behavior) (fc f1 f2 g1 g2 : Str)
    (rid msgJ ctxIdJ : J) (skvs vkvs : List (Str × J))
    (hs : jLookup skvs (strL "message") = some msgJ)
    (hctx : jLookup skvs (strL "contextId") = some ctxIdJ)
    (hv : jLookup vkvs (strL "message") = some msgJ) :
    handle_message_send b fc f1 f2 rid (J.obj skvs) =
      .ok (handle_tasks_send b f1 f2 rid (J.obj
        [(strL "id", J.str fc), (strL "sessionId", ctxIdJ),
         (strL "message", msgJ)])) ∧
    ∀ r, handle_message_send b fc f1 f2 rid (J.obj skvs) = .ok r →
      getPath r [strL "result", strL "message"] =
        getPath (handle_tasks_send b g1 g2 rid (J.obj vkvs))
          [strL "result", strL "message"] := by
  have hfirst : handle_message_send b fc f1 f2 rid (J.obj skvs) =
      .ok (handle_tasks_send b f1 f2 rid (J.obj
        [(strL "id", J.str fc), (strL "sessionId", ctxIdJ),
         (strL "message", msgJ)])) := by
    simp [handle_message_send, jGet, hs, hctx]
  refine ⟨hfirst, ?_⟩
  intro r hr
  rw [hfirst] at hr
  have hrr := Except.ok.inj hr
  subst hrr
  rw [tasks_send_message_of_obj, tasks_send_message_of_obj]
  have e1 : jLookup [(strL "id", J.str fc), (strL "sessionId", ctxIdJ),
      (strL "message", msgJ)] (strL "message") = some msgJ := by
    simp only [jLookup]
    rw [if_neg (by decide), if_neg (by decide)]
    simp
  rw [e1, hv]

/-- A concrete standard-shaped message carrying the text `"Tokyo"`. -/
def c1msg : J :=
  .obj [ (strL "role", .str (strL "user")),
         (strL "parts", .arr [ .obj [ (strL "kind", .str (strL "text")),
                                      (strL "text", .str (strL "Tokyo")) ] ]) ]

/-- Witness for C1: the delegation equation and the `result.message`
equality, instantiated on a concrete envelope pair carrying `c1msg`. -/
theorem message_send_equiv_tasks_send_witness :
    getPath (handle_tasks_send bx (strL "u1") (strL "u2") (J.str (strL "rpc"))
        (J.obj [(strL "id", J.str (strL "u0")),
                (strL "sessionId", J.str (strL "ctx")),
                (strL "message", c1msg)]))
      [strL "result", strL "message"] =
    getPath (handle_tasks_send bx (strL "u3") (strL "u4") (J.str (strL "rpc"))
        (J.obj [(strL "id", J.str (strL "t9")), (strL "message", c1msg)]))
      [strL "result", strL "message"] :=
  (message_send_equiv_tasks_send bx (strL "u0") (strL "u1") (strL "u2")
      (strL "u3") (strL "u4") (J.str (strL "rpc")) c1msg (J.str (strL "ctx"))
      [(strL "message", c1msg), (strL "contextId", J.str (strL "ctx"))]
      [(strL "id", J.str (strL "t9")), (strL "message", c1msg)]
      rfl rfl rfl).2 _
    (message_send_equiv_tasks_send bx (strL "u0") (strL "u1") (strL "u2")
      (strL "u3") (strL "u4") (J.str (strL "rpc")) c1msg (J.str (strL "ctx"))
      [(strL "message", c1msg), (strL "contextId", J.str (strL "ctx"))]
      [(strL "id", J.str (strL "t9")), (strL "message", c1msg)]
      rfl rfl rfl).1

/-! ## Claim C4 — protocol-level error codes -/

/-- C4: `handle_request` yields, for every inbound body, either a `result`
or a JSON-RPC error object whose code is one of exactly `-32700` (body not
parseable), `-32601` (unknown method) and `-32603` (any other exception
during handling); a malformed body gets `-32700` with a null id, an unknown
method `-32601` with the request id echoed, and a non-dict body `-32603`
with a null id because the exception fires before the id is read. -/
theorem handle_request_error_codes (b : Behavior) (fc f1 f2 : Str)
    (inbound : Except Str J) :
    ((∃ code, errorCodeOf (handle_request b fc f1 f2 inbound) = some code ∧
        (code = -32700 ∨ code = -32601 ∨ code = -32603)) ∨
      hasResult (handle_request b fc f1 f2 inbound) = true) ∧
    (∀ e, inbound = .error e →
      handle_request b fc f1 f2 inbound =
        errorResponse .null (-32700) (strL "Parse error: " ++ e)) ∧
    (∀ kvs, inbound = .ok (J.obj kvs) →
      (∀ m, methodStrOf ((jLookup kvs (strL "method")).getD (J.str [])) = some m →
        m ∉ [strL "tasks/send", strL "message/send",
             strL "tasks/get", strL "tasks/cancel"]) →
      handle_request b fc f1 f2 inbound =
        errorResponse ((jLookup kvs (strL "id")).getD J.null) (-32601)
          (strL "Method not found: " ++
            jRender ((jLookup kvs (strL "method")).getD (J.str [])))) ∧
    (∀ j, inbound = .ok j → (∀ kvs, j ≠ J.obj kvs) →
      handle_request b fc f1 f2 inbound =
        errorResponse J.null (-32603) (strL "Internal error: " ++ noGetMsg j)) := by
  refine ⟨?_, ?_, ?_, ?_⟩
  · -- well-formedness and the closed set of codes
    rcases inbound with e | data
    · exact .inl ⟨-32700, by simp [handle_request, errorCodeOf_errorResponse]⟩
    rcases data with _ | bv | nv | sv | av | kvs
    · exact .inl ⟨-32603, by simp [handle_request, errorCodeOf_errorResponse]⟩
    · exact .inl ⟨-32603, by simp [handle_request, errorCodeOf_errorResponse]⟩
    · exact .inl ⟨-32603, by simp [handle_request, errorCodeOf_errorResponse]⟩
    · exact .inl ⟨-32603, by simp [handle_request, errorCodeOf_errorResponse]⟩
    · exact .inl ⟨-32603, by simp [handle_request, errorCodeOf_errorResponse]⟩
    · simp only [handle_request]
      set rpcId := (jLookup kvs (strL "id")).getD J.null with hrid
      set params := (jLookup kvs (strL "params")).getD (J.obj []) with hpar
      set mstr := methodStrOf ((jLookup kvs (strL "method")).getD (J.str []))
        with hmstr
      by_cases h1 : mstr = some (strL "tasks/send")
      · rw [if_pos h1]
        rcases handle_tasks_send_shape b f1 f2 rpcId params with
          ⟨t, s, txt, heq⟩ | ⟨m, heq⟩
        · exact .inr (by simp [heq, hasResult_tasksSendResponse])
        · exact .inl ⟨-32603, by simp [heq, errorCodeOf_errorResponse]⟩
      rw [if_neg h1]
      by_cases h2 : mstr = some (strL "message/send")
      · rw [if_pos h2]
        cases hm : handle_message_send b fc f1 f2 rpcId params with
        | ok r =>
          obtain ⟨cp, rfl⟩ :=
            handle_message_send_ok_shape b fc f1 f2 rpcId params r hm
          rcases handle_tasks_send_shape b f1 f2 rpcId cp with
            ⟨t, s, txt, heq⟩ | ⟨m, heq⟩
          · exact .inr (by simp [heq, hasResult_tasksSendResponse])
          · exact .inl ⟨-32603, by simp [heq, errorCodeOf_errorResponse]⟩
        | error e =>
          exact .inl ⟨-32603, by simp [errorCodeOf_errorResponse]⟩
      rw [if_neg h2]
      by_cases h3 : mstr = some (strL "tasks/get")
      · rw [if_pos h3]
        cases hg : handle_tasks_get rpcId params with
        | ok r =>
          obtain ⟨tid, rfl⟩ := handle_tasks_get_ok_shape rpcId params r hg
          exact .inr (by simp [hasResult_taskStatusResponse])
        | error e =>
          exact .inl ⟨-32603, by simp [errorCodeOf_errorResponse]⟩
      rw [if_neg h3]
      by_cases h4 : mstr = some (strL "tasks/cancel")
      · rw [if_pos h4]
        cases hg : handle_tasks_cancel rpcId params with
        | ok r =>
          obtain ⟨tid, rfl⟩ := handle_tasks_cancel_ok_shape rpcId params r hg
          exact .inr (by simp [hasResult_taskStatusResponse])
        | error e =>
          exact .inl ⟨-32603, by simp [errorCodeOf_errorResponse]⟩
      rw [if_neg h4]
      exact .inl ⟨-32601, by simp [errorCodeOf_errorResponse]⟩
  · intro e he
    subst he
    rfl
  · intro kvs hk hunknown
    subst hk
    have h1 : ¬ methodStrOf ((jLookup kvs (strL "method")).getD (J.str [])) =
        some (strL "tasks/send") :=
      fun h => hunknown _ h (by simp)
    have h2 : ¬ methodStrOf ((jLookup kvs (strL "method")).getD (J.str [])) =
        some (strL "message/send") :=
      fun h => hunknown _ h (by simp)
    have h3 : ¬ methodStrOf ((jLookup kvs (strL "method")).getD (J.str [])) =
        some (strL "tasks/get") :=
      fun h => hunknown _ h (by simp)
    have h4 : ¬ methodStrOf ((jLookup kvs (strL "method")).getD (J.str [])) =
        some (strL "tasks/cancel") :=
      fun h => hunknown _ h (by simp)
    simp only [handle_request]
    rw [if_neg h1, if_neg h2, if_neg h3, if_neg h4]
  · intro j hj hnotobj
    subst hj
    rcases j with _ | bv | nv | sv | av | kvs
    · rfl
    · rfl
    · rfl
    · rfl
    · rfl
    · exact absurd rfl (hnotobj kvs)

/-- Witness for C4: the three error scenarios on concrete bodies — malformed
JSON, unknown method `"foo/bar"`, and a non-dict (array) body. -/
theorem handle_request_error_codes_witness :
    handle_request bx (strL "u0") (strL "u1") (strL "u2")
        (.error (strL "Expecting value")) =
      errorResponse .null (-32700)
        (strL "Parse error: " ++ strL "Expecting value") ∧
    handle_request bx (strL "u0") (strL "u1") (strL "u2")
        (.ok (J.obj [(strL "id", J.num 7),
                     (strL "method", J.str (strL "foo/bar"))])) =
      errorResponse (J.num 7) (-32601)
        (strL "Method not found: " ++ strL "foo/bar") ∧
    handle_request bx (strL "u0") (strL "u1") (strL "u2")
        (.ok (J.arr [])) =
      errorResponse J.null (-32603)
        (strL "Internal error: " ++ noGetMsg (J.arr [])) :=
  ⟨(handle_request_error_codes bx (strL "u0") (strL "u1") (strL "u2")
      (.error (strL "Expecting value"))).2.1 _ rfl,
   by
    have := (handle_request_error_codes bx (strL "u0") (strL "u1") (strL "u2")
      (.ok (J.obj [(strL "id", J.num 7),
                   (strL "method", J.str (strL "foo/bar"))]))).2.2.1
      [(strL "id", J.num 7), (strL "method", J.str (strL "foo/bar"))] rfl
      (by decide)
    simpa using this,
   (handle_request_error_codes bx (strL "u0") (strL "u1") (strL "u2")
      (.ok (J.arr []))).2.2.2 _ rfl (by intro kvs h; cases h)⟩

/-! ## Claims C2 and C7 — counterexamples

The spec attributes the `[1,5]` clamp to the classifier, but `_parse_intent`
emits the raw day count (`get_forecast` clamps later); and "every text
containing" a country-coded expression is too strong, because an earlier
`in|for|at` occurrence wins the leftmost search. -/

/-- Counterexample to C2 as stated: on `"6 day forecast for London"` (N = 6,
inside the claimed range 1-9) the classifier emits `days = 6`, not
`clamp(6,1,5) = 5`. -/
theorem parse_intent_no_clamp_counterexample :
    parse_intent (strL "6 day forecast for London") =
      Intent.forecast (strL "London") 6 ∧
    parse_intent (strL "6 day forecast for London") ≠
      Intent.forecast (strL "London") (min (max 6 1) 5) := by
  constructor
  · decide
  · decide

/-- Counterexample to C7 as stated: `"at home today weather in Paris, FR"`
contains the expression `"weather in Paris, FR"`, yet `_extract_city`
returns `"home"` — pattern 1 matches the earlier `"at home today"`. -/
theorem extract_city_containing_counterexample :
    containsSub (strL "at home today weather in Paris, FR")
        (strL "weather in Paris, FR") = true ∧
    extract_city (strL "at home today weather in Paris, FR") =
      some (strL "home") ∧
    some (strL "home") ≠ some (strL "Paris,FR") := by
  refine ⟨by decide, by decide, by decide⟩

/-! ## Symbolic-matching toolkit for the amended C2/C7 claims -/

theorem alpha_not_ws {c : Char} (h : isAlphaAscii c = true) : isWs c = false := by
  simp [isAlphaAscii, isUpperAscii, isLowerAscii] at h
  simp [isWs]
  omega

theorem alpha_isAlphaWs {c : Char} (h : isAlphaAscii c = true) :
    isAlphaWs c = true := by
  simp [isAlphaWs, h]

theorem alpha_not_digit {c : Char} (h : isAlphaAscii c = true) :
    isDigitAscii c = false := by
  simp [isAlphaAscii, isUpperAscii, isLowerAscii] at h
  simp [isDigitAscii]
  omega

/-- A character whose code differs is a different character. -/
theorem decide_char_eq_false {c x : Char} (h : c.toNat ≠ x.toNat) :
    decide (c = x) = false := by
  apply decide_eq_false
  intro he
  exact h (by rw [he])

theorem alpha_toNat {c : Char} (h : isAlphaAscii c = true) :
    (65 ≤ c.toNat ∧ c.toNat ≤ 90) ∨ (97 ≤ c.toNat ∧ c.toNat ≤ 122) := by
  simp [isAlphaAscii, isUpperAscii, isLowerAscii] at h
  omega

theorem alpha_ne_comma {c : Char} (h : isAlphaAscii c = true) :
    decide (c = ',') = false := by
  apply decide_char_eq_false
  have hr := alpha_toNat h
  have h44 : (',').toNat = 44 := rfl
  omega

theorem alpha_ne_question {c : Char} (h : isAlphaAscii c = true) :
    decide (c = '?') = false := by
  apply decide_char_eq_false
  have hr := alpha_toNat h
  have h63 : ('?').toNat = 63 := rfl
  omega

/-- `get?` is the head of the corresponding suffix. -/
theorem get?_eq_head_drop (s : Str) (i : Nat) : s.get? i = (s.drop i).head? := by
  induction s generalizing i with
  | nil => cases i <;> rfl
  | cons c t ih => cases i with
    | zero => rfl
    | succ j => simp only [List.drop_succ_cons, List.get?]
                exact ih j

theorem drop_cons_of_get? {s : Str} {i : Nat} {x : Char}
    (h : s.get? i = some x) : s.drop i = x :: s.drop (i + 1) := by
  induction s generalizing i with
  | nil => simp at h
  | cons c t ih =>
    cases i with
    | zero => simp_all
    | succ j =>
      simp only [List.get?] at h
      simpa using ih h

theorem get?_of_drop {s : Str} {i : Nat} {x : Char} {r : Str}
    (h : s.drop i = x :: r) : s.get? i = some x := by
  rw [get?_eq_head_drop, h]
  rfl

theorem drop_append_first (A B : Str) : (A ++ B).drop A.length = B := by
  induction A with
  | nil => rfl
  | cons c t ih => simp only [List.cons_append, List.length_cons, List.drop_succ_cons]
                   exact ih

theorem drop_append_of_le {j : Nat} (A B : Str) (h : j ≤ A.length) :
    (A ++ B).drop j = A.drop j ++ B := by
  induction A generalizing j with
  | nil =>
    have : j = 0 := by simpa using h
    subst this
    rfl
  | cons c t ih =>
    cases j with
    | zero => rfl
    | succ i => simpa using ih (by simpa using h)

theorem drop_add (s : Str) (a b : Nat) : s.drop (a + b) = (s.drop a).drop b := by
  rw [List.drop_drop, Nat.add_comm]

/-- Case folding both sides before the prefix test — what the `IGNORECASE`
literal chain checks at one position. -/
def icPrefix (w t : Str) : Bool := (lowerStr w).isPrefixOf (lowerStr t)

theorem icPrefix_nil (t : Str) : icPrefix [] t = true := by
  simp [icPrefix, lowerStr, List.isPrefixOf]

theorem icPrefix_cons_nil (c : Char) (w : Str) : icPrefix (c :: w) [] = false := by
  simp [icPrefix, lowerStr, List.isPrefixOf]

theorem icPrefix_cons (c x : Char) (w t : Str) :
    icPrefix (c :: w) (x :: t) =
      (decide (x.toLower = c.toLower) && icPrefix w t) := by
  simp only [icPrefix, lowerStr, List.map, List.isPrefixOf]
  cases h : decide (x.toLower = c.toLower) with
  | true =>
    have he := of_decide_eq_true h
    have hb : (c.toLower == x.toLower) = true := beq_iff_eq.mpr he.symm
    simp [hb]
  | false =>
    have hne := of_decide_eq_false h
    have hb : (c.toLower == x.toLower) = false :=
      beq_eq_false_iff_ne.mpr (fun h2 => hne h2.symm)
    simp [hb]

/-! ### Engine equation lemmas -/

theorem reMatch_cat (s : Str) (a b : RE) (i : Nat) (cs : Caps) (k) :
    reMatch s (.cat a b) i cs k =
      reMatch s a i cs (fun j cs2 => reMatch s b j cs2 k) := rfl

theorem reMatch_alt (s : Str) (a b : RE) (i : Nat) (cs : Caps) (k) :
    reMatch s (.alt a b) i cs k =
      match reMatch s a i cs k with
      | some r => some r
      | none => reMatch s b i cs k := rfl

theorem reMatch_opt (s : Str) (a : RE) (i : Nat) (cs : Caps) (k) :
    reMatch s (.opt a) i cs k =
      match reMatch s a i cs k with
      | some r => some r
      | none => k i cs := rfl

theorem reMatch_grp (s : Str) (g : Nat) (a : RE) (i : Nat) (cs : Caps) (k) :
    reMatch s (.grp g a) i cs k =
      reMatch s a i cs (fun j cs2 => k j ((g, i, j) :: cs2)) := rfl

theorem reMatch_eos (s : Str) (i : Nat) (cs : Caps) (k) :
    reMatch s .eos i cs k = if i = s.length then k i cs else none := rfl

theorem reMatch_rep (s : Str) (lzy one : Bool) (p : Char → Bool) (i : Nat)
    (cs : Caps) (k) :
    reMatch s (.rep lzy one p) i cs k =
      firstSome (fun j => k (i + j) cs)
        (if lzy then (if one then upRange 1 (runLen p s i)
                      else upRange 0 (runLen p s i + 1))
         else (if one then downRange (runLen p s i) (runLen p s i)
               else downRange (runLen p s i) (runLen p s i + 1))) := rfl

theorem reMatch_cls_eval {s : Str} {i : Nat} {c : Char}
    (p : Char → Bool) (cs : Caps) (k) (h : s.get? i = some c) :
    reMatch s (.cls p) i cs k = if p c then k (i + 1) cs else none := by
  simp only [reMatch, h]

theorem reMatch_cls_none {s : Str} {i : Nat}
    (p : Char → Bool) (cs : Caps) (k) (h : s.get? i = none) :
    reMatch s (.cls p) i cs k = none := by
  simp only [reMatch, h]

/-- The `IGNORECASE` literal chain: consumes `w.length` characters when the
case-folded prefix matches, fails otherwise. -/
theorem reMatch_litStrIC (s : Str) (w : Str) (i : Nat) (cs : Caps) (k) :
    reMatch s (litStrIC w) i cs k =
      if icPrefix w (s.drop i) then k (i + w.length) cs else none := by
  induction w generalizing i with
  | nil => simp [litStrIC, reMatch, icPrefix_nil]
  | cons c w ih =>
    show reMatch s (.cat (litCharIC c) (litStrIC w)) i cs _ = _
    rw [reMatch_cat]
    simp only [litCharIC]
    cases hg : s.get? i with
    | none =>
      rw [reMatch_cls_none _ _ _ hg]
      have hd : s.drop i = [] := by
        rw [get?_eq_head_drop] at hg
        cases hdd : s.drop i with
        | nil => rfl
        | cons a t => rw [hdd] at hg; cases hg
      rw [hd, icPrefix_cons_nil]
      rfl
    | some x =>
      rw [reMatch_cls_eval _ _ _ hg, drop_cons_of_get? hg, icPrefix_cons]
      show (if decide (x.toLower = c.toLower) then _ else _) = _
      cases hdec : decide (x.toLower = c.toLower) with
      | false => simp
      | true =>
        simp only [if_pos rfl, Bool.true_and, if_true]
        rw [ih (i + 1)]
        have : i + 1 + w.length = i + (w.length + 1) := by omega
        simp [this]

/-- The case-sensitive literal chain. -/
theorem reMatch_litStr (s : Str) (w : Str) (i : Nat) (cs : Caps) (k) :
    reMatch s (litStr w) i cs k =
      if w.isPrefixOf (s.drop i) then k (i + w.length) cs else none := by
  induction w generalizing i with
  | nil => simp [litStr, reMatch, List.isPrefixOf]
  | cons c w ih =>
    show reMatch s (.cat (litChar c) (litStr w)) i cs _ = _
    rw [reMatch_cat]
    simp only [litChar]
    cases hg : s.get? i with
    | none =>
      rw [reMatch_cls_none _ _ _ hg]
      have hd : s.drop i = [] := by
        rw [get?_eq_head_drop] at hg
        cases hdd : s.drop i with
        | nil => rfl
        | cons a t => rw [hdd] at hg; cases hg
      rw [hd]
      simp [List.isPrefixOf]
    | some x =>
      rw [reMatch_cls_eval _ _ _ hg, drop_cons_of_get? hg]
      show (if decide (x = c) then _ else _) = _
      cases hdec : decide (x = c) with
      | false =>
        have hne := of_decide_eq_false hdec
        have hb : (c == x) = false :=
          beq_eq_false_iff_ne.mpr (fun h2 => hne h2.symm)
        simp [List.isPrefixOf, hb]
      | true =>
        have heq := of_decide_eq_true hdec
        subst heq
        simp only [if_true]
        rw [ih (i + 1)]
        have harith : i + 1 + w.length = i + (w.length + 1) := by omega
        simp [List.isPrefixOf, harith]

/-! ### firstSome, ranges, runs -/

theorem firstSome_nil {α β : Type} (f : α → Option β) : firstSome f [] = none := rfl

theorem firstSome_cons {α β : Type} (f : α → Option β) (x : α) (l : List α) :
    firstSome f (x :: l) =
      match f x with
      | some r => some r
      | none => firstSome f l := rfl

theorem firstSome_none_of_all {α β : Type} (f : α → Option β) (l : List α)
    (h : ∀ x ∈ l, f x = none) : firstSome f l = none := by
  induction l with
  | nil => rfl
  | cons x t ih =>
    rw [firstSome_cons, h x (by simp)]
    exact ih (fun y hy => h y (by simp [hy]))

theorem firstSome_append_none {α β : Type} (f : α → Option β) (l1 l2 : List α)
    (h : ∀ x ∈ l1, f x = none) :
    firstSome f (l1 ++ l2) = firstSome f l2 := by
  induction l1 with
  | nil => rfl
  | cons x t ih =>
    rw [List.cons_append, firstSome_cons, h x (by simp)]
    exact ih (fun y hy => h y (by simp [hy]))

theorem firstSome_singleton {α β : Type} (f : α → Option β) (x : α) :
    firstSome f [x] = f x := by
  rw [firstSome_cons]
  cases f x <;> rfl

theorem upRange_append (lo a b : Nat) :
    upRange lo (a + b) = upRange lo a ++ upRange (lo + a) b := by
  induction a generalizing lo with
  | zero => simp [upRange]
  | succ a ih =>
    have h1 : a + 1 + b = (a + b) + 1 := by omega
    rw [h1]
    show lo :: upRange (lo + 1) (a + b) =
      (lo :: upRange (lo + 1) a) ++ upRange (lo + (a + 1)) b
    rw [ih (lo + 1), List.cons_append]
    have h2 : lo + 1 + a = lo + (a + 1) := by omega
    rw [h2]

theorem mem_upRange {x lo n : Nat} (h : x ∈ upRange lo n) :
    lo ≤ x ∧ x < lo + n := by
  induction n generalizing lo with
  | zero => cases h
  | succ n ih =>
    simp only [upRange, List.mem_cons] at h
    rcases h with h | h
    · omega
    · have := ih h
      omega

theorem runLenFrom_all (p : Char → Bool) (A B : Str)
    (h : ∀ c ∈ A, p c = true) :
    runLenFrom p (A ++ B) = A.length + runLenFrom p B := by
  induction A with
  | nil => simp
  | cons c t ih =>
    rw [List.cons_append]
    show (if p c then runLenFrom p (t ++ B) + 1 else 0) = _
    rw [h c (by simp), ih (fun x hx => h x (by simp [hx]))]
    simp
    omega

theorem runLenFrom_head_false (p : Char → Bool) (c : Char) (t : Str)
    (h : p c = false) : runLenFrom p (c :: t) = 0 := by
  show (if p c then runLenFrom p t + 1 else 0) = 0
  rw [h]
  rfl

theorem runLenFrom_nil (p : Char → Bool) : runLenFrom p [] = 0 := rfl

theorem runLen_eq (p : Char → Bool) (s : Str) (i : Nat) :
    runLen p s i = runLenFrom p (s.drop i) := rfl

/-! ### Search scaffolding -/

theorem reSearchAux_succ (s : Str) (re : RE) (i f : Nat) :
    reSearchAux s re i (f + 1) =
      match matchAt s re i with
      | some (j, cs) => some (i, j, cs)
      | none => reSearchAux s re (i + 1) f := rfl

theorem reSearchAux_none (s : Str) (re : RE)
    (h : ∀ j, matchAt s re j = none) :
    ∀ i fuel, reSearchAux s re i fuel = none := by
  intro i fuel
  induction fuel generalizing i with
  | zero => rfl
  | succ f ih =>
    rw [reSearchAux_succ, h i]
    exact ih (i + 1)

theorem reSearch_none (s : Str) (re : RE)
    (h : ∀ j, matchAt s re j = none) : reSearch s re = none :=
  reSearchAux_none s re h 0 _

/-! ### Substring facts -/

theorem isPrefixOf_append_of_isPrefixOf {w l : Str} (B : Str)
    (h : w.isPrefixOf l = true) : w.isPrefixOf (l ++ B) = true := by
  induction w generalizing l with
  | nil => simp [List.isPrefixOf]
  | cons c t ih =>
    cases l with
    | nil => simp [List.isPrefixOf] at h
    | cons a r =>
      simp only [List.isPrefixOf, Bool.and_eq_true] at h
      simp only [List.cons_append, List.isPrefixOf, Bool.and_eq_true]
      exact ⟨h.1, ih h.2⟩

theorem containsSub_append_of_left {A : Str} (B : Str) {w : Str}
    (h : containsSub A w = true) : containsSub (A ++ B) w = true := by
  induction A with
  | nil =>
    simp [containsSub] at h
    subst h
    cases B with
    | nil => rfl
    | cons c t => simp [containsSub, List.isPrefixOf]
  | cons c t ih =>
    simp only [containsSub, Bool.or_eq_true] at h
    rcases h with h | h
    · simp only [List.cons_append, containsSub, Bool.or_eq_true]
      exact .inl (isPrefixOf_append_of_isPrefixOf B h)
    · simp only [List.cons_append, containsSub, Bool.or_eq_true]
      exact .inr (ih h)

theorem containsSub_of_prefix_drop {s w : Str} (q : Nat)
    (h : w.isPrefixOf (s.drop q) = true) : containsSub s w = true := by
  induction s generalizing q with
  | nil =>
    simp at h
    cases w with
    | nil => rfl
    | cons c t => simp [List.isPrefixOf] at h
  | cons a t ih =>
    cases q with
    | zero => exact containsSub_of_isPrefixOf _ _ h
    | succ q2 =>
      simp only [List.drop_succ_cons] at h
      simp [containsSub, ih q2 h]

/-- A substring absent from the lowercased text rules out a case-insensitive
literal match at every position. -/
theorem icPrefix_false_of_not_contains {s w : Str}
    (h : containsSub (lowerStr s) (lowerStr w) = false) (q : Nat) :
    icPrefix w (s.drop q) = false := by
  cases hic : icPrefix w (s.drop q) with
  | false => rfl
  | true =>
    exfalso
    have hp : (lowerStr w).isPrefixOf (lowerStr (s.drop q)) = true := hic
    rw [show lowerStr (s.drop q) = (lowerStr s).drop q from
      List.map_drop Char.toLower s q] at hp
    exact absurd (containsSub_of_prefix_drop q hp) (by simp [h])

/-! ### Evaluation of the whitespace repetitions -/

theorem lt_length_of_drop_cons {s : Str} {pos : Nat} {x : Char} {r : Str}
    (hdrop : s.drop pos = x :: r) : pos < s.length := by
  have := congrArg List.length hdrop
  simp [List.length_drop] at this
  omega

theorem reMatch_wsStar_zero (s : Str) (pos : Nat) (cs : Caps) (k)
    (h : runLen isWs s pos = 0) : reMatch s wsStar pos cs k = k pos cs := by
  rw [show wsStar = RE.rep false false isWs from rfl, reMatch_rep, h]
  show firstSome _ (downRange 0 1) = _
  rw [show downRange 0 1 = [0] from rfl, firstSome_singleton]
  rfl

theorem reMatch_wsPlus_zero (s : Str) (pos : Nat) (cs : Caps) (k)
    (h : runLen isWs s pos = 0) : reMatch s wsPlus pos cs k = none := by
  rw [show wsPlus = RE.rep false true isWs from rfl, reMatch_rep, h]
  rfl

theorem reMatch_wsPlus_one (s : Str) (pos : Nat) (cs : Caps) (k)
    (h : runLen isWs s pos = 1) : reMatch s wsPlus pos cs k = k (pos + 1) cs := by
  rw [show wsPlus = RE.rep false true isWs from rfl, reMatch_rep, h]
  show firstSome _ (downRange 1 1) = _
  rw [show downRange 1 1 = [1] from rfl, firstSome_singleton]

/-! ### Failure of the terminator and country probes on an alphabetic head -/

theorem cityStop_none (s : Str) (pos : Nat) (cs : Caps) (k) (x : Char) (r : Str)
    (hdrop : s.drop pos = x :: r)
    (hx : isAlphaAscii x = true)
    (h1 : icPrefix (strL "today") (s.drop pos) = false)
    (h2 : icPrefix (strL "tomorrow") (s.drop pos) = false)
    (h3 : icPrefix (strL "this") (s.drop pos) = false)
    (h4 : icPrefix (strL "next") (s.drop pos) = false) :
    reMatch s cityStop pos cs k = none := by
  have hg : s.get? pos = some x := get?_of_drop hdrop
  have hne : pos ≠ s.length := by
    have := lt_length_of_drop_cons hdrop
    omega
  unfold cityStop
  rw [reMatch_alt,
    show litChar '?' = RE.cls (fun ch => decide (ch = '?')) from rfl,
    reMatch_cls_eval _ _ _ hg, alpha_ne_question hx]
  simp only [if_false, Bool.false_eq_true]
  rw [reMatch_alt, reMatch_eos, if_neg hne]
  rw [reMatch_alt, reMatch_litStrIC, h1]
  simp only [if_false, Bool.false_eq_true]
  rw [reMatch_alt, reMatch_litStrIC, h2]
  simp only [if_false, Bool.false_eq_true]
  rw [reMatch_alt, reMatch_litStrIC, h3]
  simp only [if_false, Bool.false_eq_true]
  rw [reMatch_litStrIC, h4]
  simp

/-- The country-code probe `\s*,\s*([A-Z]{2})` fails on an alphabetic head,
whatever follows and whatever the continuation. -/
theorem wsStar_comma_fail (s : Str) (pos : Nat) (cs : Caps) (X : RE) (k)
    (x : Char) (r : Str)
    (hdrop : s.drop pos = x :: r)
    (hx : isAlphaAscii x = true) :
    reMatch s (.cat wsStar (.cat (litChar ',') X)) pos cs k = none := by
  have hg : s.get? pos = some x := get?_of_drop hdrop
  have hrl : runLen isWs s pos = 0 := by
    rw [runLen_eq, hdrop]
    exact runLenFrom_head_false _ _ _ (alpha_not_ws hx)
  rw [reMatch_cat, reMatch_wsStar_zero _ _ _ _ hrl, reMatch_cat,
    show litChar ',' = RE.cls (fun ch => decide (ch = ',')) from rfl,
    reMatch_cls_eval _ _ _ hg, alpha_ne_comma hx]
  simp

/-- At a position whose head character is alphabetic (and with all four
temporal stop words ruled out) the whole post-group tail of city pattern 1
fails: the lazy group must keep growing. -/
theorem optCountry_tail_fail (s : Str) (pos : Nat) (cs : Caps) (k)
    (x : Char) (r : Str)
    (hdrop : s.drop pos = x :: r)
    (hx : isAlphaAscii x = true)
    (h1 : icPrefix (strL "today") (s.drop pos) = false)
    (h2 : icPrefix (strL "tomorrow") (s.drop pos) = false)
    (h3 : icPrefix (strL "this") (s.drop pos) = false)
    (h4 : icPrefix (strL "next") (s.drop pos) = false) :
    reMatch s (.cat optCountry (.cat wsStar cityStop)) pos cs k = none := by
  have hrl : runLen isWs s pos = 0 := by
    rw [runLen_eq, hdrop]
    exact runLenFrom_head_false _ _ _ (alpha_not_ws hx)
  rw [reMatch_cat]
  unfold optCountry
  rw [reMatch_opt, wsStar_comma_fail s pos cs _ _ x r hdrop hx]
  rw [reMatch_cat, reMatch_wsStar_zero _ _ _ _ hrl,
    cityStop_none s pos cs _ x r hdrop hx h1 h2 h3 h4]

/-- The lazy city group: every length short of the full city fails, so the
match reduces to the tail evaluated right after the city, with group 1
recorded as the whole city. -/
theorem p1tail_loop (s city R : Str) (p0 : Nat) (cs : Caps) (k)
    (hdrop : s.drop p0 = city ++ R)
    (hnil : city ≠ [])
    (hcity : ∀ c ∈ city, isAlphaAscii c = true)
    (hs1 : ∀ q, icPrefix (strL "today") (s.drop q) = false)
    (hs2 : ∀ q, icPrefix (strL "tomorrow") (s.drop q) = false)
    (hs3 : ∀ q, icPrefix (strL "this") (s.drop q) = false)
    (hs4 : ∀ q, icPrefix (strL "next") (s.drop q) = false)
    (hR : runLenFrom isAlphaWs R = 0) :
    reMatch s (.cat (.grp 1 (.rep true true isAlphaWs))
        (.cat optCountry (.cat wsStar cityStop))) p0 cs k =
      reMatch s (.cat optCountry (.cat wsStar cityStop)) (p0 + city.length)
        ((1, p0, p0 + city.length) :: cs) k := by
  have hm : runLen isAlphaWs s p0 = city.length := by
    rw [runLen_eq, hdrop,
      runLenFrom_all _ _ _ (fun c hc => alpha_isAlphaWs (hcity c hc)), hR]
    omega
  have hfail : ∀ j, 1 ≤ j → j < city.length →
      reMatch s (.cat optCountry (.cat wsStar cityStop)) (p0 + j)
        ((1, p0, p0 + j) :: cs) k = none := by
    intro j hj1 hj2
    have hd2 : s.drop (p0 + j) = city.drop j ++ R := by
      rw [drop_add, hdrop, drop_append_of_le _ _ (by omega)]
    cases hcd : city.drop j with
    | nil =>
      have := congrArg List.length hcd
      simp at this
      omega
    | cons d dr =>
      have hdmem : d ∈ city := List.drop_subset j city (by rw [hcd]; simp)
      have hd3 : s.drop (p0 + j) = d :: (dr ++ R) := by
        rw [hd2, hcd]
        rfl
      exact optCountry_tail_fail s (p0 + j) _ k d _ hd3 (hcity d hdmem)
        (hs1 _) (hs2 _) (hs3 _) (hs4 _)
  obtain ⟨n0, hn0⟩ : ∃ n0, city.length = n0 + 1 := by
    refine ⟨city.length - 1, ?_⟩
    have := List.length_pos.mpr hnil
    omega
  rw [reMatch_cat, reMatch_grp, reMatch_rep, hm]
  simp only [if_true]
  rw [hn0, upRange_append 1 n0 1, firstSome_append_none]
  · rw [show upRange (1 + n0) 1 = [1 + n0] from rfl, firstSome_singleton]
    show reMatch s (.cat optCountry (.cat wsStar cityStop)) (p0 + (1 + n0))
      ((1, p0, p0 + (1 + n0)) :: cs) k = _
    have harith : p0 + (1 + n0) = p0 + (n0 + 1) := by omega
    rw [harith]
  · intro x hx
    have hb := mem_upRange hx
    show reMatch s (.cat optCountry (.cat wsStar cityStop)) (p0 + x)
      ((1, p0, p0 + x) :: cs) k = none
    exact hfail x hb.1 (by omega)

/-- The tail of city pattern 1 at the end of input: no country group, the
`$` terminator fires, the continuation runs at the current position. -/
theorem optCountry_tail_end (s : Str) (pos : Nat) (cs : Caps) (k)
    (hdrop : s.drop pos = [])
    (hlen : pos = s.length) :
    reMatch s (.cat optCountry (.cat wsStar cityStop)) pos cs k = k pos cs := by
  have hg : s.get? pos = none := by
    rw [get?_eq_head_drop, hdrop]
    rfl
  have hrl : runLen isWs s pos = 0 := by
    rw [runLen_eq, hdrop]
    rfl
  rw [reMatch_cat]
  unfold optCountry
  have hinner : ∀ k2, reMatch s
      (.cat wsStar (.cat (litChar ',')
        (.cat wsStar (.grp 2 (.cat (.cls isAlphaAscii) (.cls isAlphaAscii))))))
      pos cs k2 = none := by
    intro k2
    rw [reMatch_cat, reMatch_wsStar_zero _ _ _ _ hrl, reMatch_cat,
      show litChar ',' = RE.cls (fun ch => decide (ch = ',')) from rfl,
      reMatch_cls_none _ _ _ hg]
  rw [reMatch_opt, hinner]
  rw [reMatch_cat, reMatch_wsStar_zero _ _ _ _ hrl]
  unfold cityStop
  rw [reMatch_alt,
    show litChar '?' = RE.cls (fun ch => decide (ch = '?')) from rfl,
    reMatch_cls_none _ _ _ hg]
  rw [reMatch_alt, reMatch_eos, if_pos hlen]
  cases hk : k pos cs with
  | some r => rfl
  | none =>
    rw [reMatch_alt, reMatch_litStrIC]
    rw [hdrop, show icPrefix (strL "today") [] = false from rfl]
    simp only [if_false, Bool.false_eq_true]
    rw [reMatch_alt, reMatch_litStrIC, hdrop,
      show icPrefix (strL "tomorrow") [] = false from rfl]
    simp only [if_false, Bool.false_eq_true]
    rw [reMatch_alt, reMatch_litStrIC, hdrop,
      show icPrefix (strL "this") [] = false from rfl]
    simp only [if_false, Bool.false_eq_true]
    rw [reMatch_litStrIC, hdrop,
      show icPrefix (strL "next") [] = false from rfl]
    simp

theorem icPrefix_head_ne (c x : Char) (w t : Str)
    (h : decide (x.toLower = c.toLower) = false) :
    icPrefix (c :: w) (x :: t) = false := by
  rw [icPrefix_cons, h]
  rfl

theorem reMatch_wsStar_one (s : Str) (pos : Nat) (cs : Caps) (k)
    (h : runLen isWs s pos = 1) :
    reMatch s wsStar pos cs k =
      match k (pos + 1) cs with
      | some r => some r
      | none => k pos cs := by
  rw [show wsStar = RE.rep false false isWs from rfl, reMatch_rep, h]
  show firstSome _ (downRange 1 2) = _
  rw [show downRange 1 2 = [1, 0] from rfl, firstSome_cons]
  cases k (pos + 1) cs with
  | some r => rfl
  | none => rw [firstSome_singleton]; rfl

/-- The tail of city pattern 1 on `", CC"` at the end of input: the greedy
country probe consumes `", CC"`, records group 2, and the `$` terminator
fires four characters further on. -/
theorem optCountry_tail_country (s : Str) (pos : Nat) (cs : Caps) (k)
    (u1 u2 : Char)
    (hdrop : s.drop pos = ',' :: ' ' :: [u1, u2])
    (hu1 : isAlphaAscii u1 = true) (hu2 : isAlphaAscii u2 = true) :
    reMatch s (.cat optCountry (.cat wsStar cityStop)) pos cs k =
      k (pos + 4) ((2, pos + 2, pos + 4) :: cs) := by
  have hd0 : s.get? pos = some ',' := get?_of_drop hdrop
  have hdrop1 : s.drop (pos + 1) = ' ' :: [u1, u2] := by
    rw [drop_add s pos 1, hdrop]
    rfl
  have hg1 : s.get? (pos + 1) = some ' ' := get?_of_drop hdrop1
  have hdrop2 : s.drop (pos + 2) = [u1, u2] := by
    rw [drop_add s pos 2, hdrop]
    rfl
  have hg2 : s.get? (pos + 2) = some u1 := get?_of_drop hdrop2
  have hdrop3 : s.drop (pos + 3) = [u2] := by
    rw [drop_add s pos 3, hdrop]
    rfl
  have hg3 : s.get? (pos + 3) = some u2 := get?_of_drop hdrop3
  have hdrop4 : s.drop (pos + 4) = [] := by
    rw [drop_add s pos 4, hdrop]
    rfl
  have hg4 : s.get? (pos + 4) = none := by
    rw [get?_eq_head_drop, hdrop4]
    rfl
  have hlen4 : pos + 4 = s.length := by
    have h1 := congrArg List.length hdrop
    simp [List.length_drop] at h1
    have h2 := lt_length_of_drop_cons hdrop
    omega
  have hrl0 : runLen isWs s pos = 0 := by
    rw [runLen_eq, hdrop]
    rfl
  have hrl1 : runLen isWs s (pos + 1) = 1 := by
    rw [runLen_eq, hdrop1]
    simp [runLenFrom, show isWs ' ' = true from rfl, alpha_not_ws hu1]
  have hrl4 : runLen isWs s (pos + 4) = 0 := by
    rw [runLen_eq, hdrop4]
    rfl
  -- the final tail `\s*(?:...)` at the end of input, for any captures
  have htail4 : ∀ cs2, reMatch s (.cat wsStar cityStop) (pos + 4) cs2 k =
      k (pos + 4) cs2 := by
    intro cs2
    rw [reMatch_cat, reMatch_wsStar_zero _ _ _ _ hrl4]
    unfold cityStop
    rw [reMatch_alt,
      show litChar '?' = RE.cls (fun ch => decide (ch = '?')) from rfl,
      reMatch_cls_none _ _ _ hg4]
    rw [reMatch_alt, reMatch_eos, if_pos hlen4]
    cases hk : k (pos + 4) cs2 with
    | some r => rfl
    | none =>
      rw [reMatch_alt, reMatch_litStrIC, hdrop4,
        show icPrefix (strL "today") [] = false from rfl]
      simp only [if_false, Bool.false_eq_true]
      rw [reMatch_alt, reMatch_litStrIC, hdrop4,
        show icPrefix (strL "tomorrow") [] = false from rfl]
      simp only [if_false, Bool.false_eq_true]
      rw [reMatch_alt, reMatch_litStrIC, hdrop4,
        show icPrefix (strL "this") [] = false from rfl]
      simp only [if_false, Bool.false_eq_true]
      rw [reMatch_litStrIC, hdrop4,
        show icPrefix (strL "next") [] = false from rfl]
      simp
  -- the group-2 character pair starting right after `", "`
  have hg2run : ∀ (K : Nat → Caps → Option (Nat × Caps)),
      reMatch s (.grp 2 (.cat (.cls isAlphaAscii) (.cls isAlphaAscii)))
        (pos + 2) cs K = K (pos + 4) ((2, pos + 2, pos + 4) :: cs) := by
    intro K
    rw [reMatch_grp, reMatch_cat, reMatch_cls_eval _ _ _ hg2, hu1, if_pos rfl]
    have h23 : pos + 2 + 1 = pos + 3 := by omega
    rw [h23, reMatch_cls_eval _ _ _ hg3, hu2, if_pos rfl]
  -- the group-2 probe one position earlier (lazy backtrack) fails on ' '
  have hg2fail : ∀ (K : Nat → Caps → Option (Nat × Caps)),
      reMatch s (.grp 2 (.cat (.cls isAlphaAscii) (.cls isAlphaAscii)))
        (pos + 1) cs K = none := by
    intro K
    rw [reMatch_grp, reMatch_cat, reMatch_cls_eval _ _ _ hg1,
      show isAlphaAscii ' ' = false from rfl]
    simp
  rw [reMatch_cat]
  unfold optCountry
  rw [reMatch_opt]
  rw [reMatch_cat, reMatch_wsStar_zero _ _ _ _ hrl0]
  rw [reMatch_cat,
    show litChar ',' = RE.cls (fun ch => decide (ch = ',')) from rfl,
    reMatch_cls_eval _ _ _ hd0,
    show (decide ((',' : Char) = ',')) = true from rfl, if_pos rfl]
  rw [reMatch_cat, reMatch_wsStar_one _ _ _ _ hrl1]
  have h12 : pos + 1 + 1 = pos + 2 := by omega
  rw [h12, hg2run, hg2fail, htail4]
  cases hk : k (pos + 4) ((2, pos + 2, pos + 4) :: cs) with
  | some r => rfl
  | none =>
    -- the optional group fails entirely; the direct path also dies on ','
    rw [reMatch_cat, reMatch_wsStar_zero _ _ _ _ hrl0]
    unfold cityStop
    rw [reMatch_alt,
      show litChar '?' = RE.cls (fun ch => decide (ch = '?')) from rfl,
      reMatch_cls_eval _ _ _ hd0,
      show (decide ((',' : Char) = '?')) = false from rfl]
    simp only [if_false, Bool.false_eq_true]
    rw [reMatch_alt, reMatch_eos, if_neg (by omega)]
    have hw1 : icPrefix (strL "today") (',' :: ' ' :: [u1, u2]) = false := by
      rw [show strL "today" = 't' :: strL "oday" from rfl]
      exact icPrefix_head_ne 't' ',' _ _ (by decide)
    have hw2 : icPrefix (strL "tomorrow") (',' :: ' ' :: [u1, u2]) = false := by
      rw [show strL "tomorrow" = 't' :: strL "omorrow" from rfl]
      exact icPrefix_head_ne 't' ',' _ _ (by decide)
    have hw3 : icPrefix (strL "this") (',' :: ' ' :: [u1, u2]) = false := by
      rw [show strL "this" = 't' :: strL "his" from rfl]
      exact icPrefix_head_ne 't' ',' _ _ (by decide)
    have hw4 : icPrefix (strL "next") (',' :: ' ' :: [u1, u2]) = false := by
      rw [show strL "next" = 'n' :: strL "ext" from rfl]
      exact icPrefix_head_ne 'n' ',' _ _ (by decide)
    rw [reMatch_alt, reMatch_litStrIC, hdrop, hw1]
    simp only [if_false, Bool.false_eq_true]
    rw [reMatch_alt, reMatch_litStrIC, hdrop, hw2]
    simp only [if_false, Bool.false_eq_true]
    rw [reMatch_alt, reMatch_litStrIC, hdrop, hw3]
    simp only [if_false, Bool.false_eq_true]
    rw [reMatch_litStrIC, hdrop, hw4]
    simp

/-! ### Locating the leftmost match -/

theorem reSearchAux_found (s : Str) (re : RE) (i : Nat) (e : Nat) (cs : Caps)
    (hfound : matchAt s re i = some (e, cs)) :
    ∀ i0 fuel, (∀ j, i0 ≤ j → j < i → matchAt s re j = none) → i0 ≤ i →
      i < i0 + fuel → reSearchAux s re i0 fuel = some (i, e, cs) := by
  intro i0 fuel
  induction fuel generalizing i0 with
  | zero =>
    intro _ _ h
    omega
  | succ f ih =>
    intro hfail hle hlt
    rcases Nat.eq_or_lt_of_le hle with heq | hlt2
    · subst heq
      rw [reSearchAux_succ, hfound]
    · rw [reSearchAux_succ, hfail i0 (by omega) hlt2]
      exact ih (i0 + 1) (fun j h1 h2 => hfail j (by omega) h2) (by omega) (by omega)

theorem reSearch_found (s : Str) (re : RE) (i e : Nat) (cs : Caps)
    (hfound : matchAt s re i = some (e, cs))
    (hfail : ∀ j, j < i → matchAt s re j = none)
    (hi : i ≤ s.length) :
    reSearch s re = some (i, e, cs) := by
  unfold reSearch reSearchFrom
  exact reSearchAux_found s re i e cs hfound 0 (s.length + 1 - 0)
    (fun j _ h2 => hfail j h2) (by omega) (by omega)

/-! ### take/strip helpers -/

theorem take_append_add (A B : Str) (m : Nat) :
    (A ++ B).take (A.length + m) = A ++ B.take m := by
  induction A with
  | nil => simp
  | cons c t ih =>
    have h : (c :: t).length + m = (t.length + m) + 1 := by
      simp
      omega
    rw [h]
    show c :: (t ++ B).take (t.length + m) = c :: (t ++ B.take m)
    rw [ih]

theorem take_append_first (A B : Str) : (A ++ B).take A.length = A := by
  have h := take_append_add A B 0
  simp only [List.take_zero, List.append_nil, Nat.add_zero] at h
  exact h

theorem dropWhile_false_all (p : Char → Bool) (l : Str)
    (h : ∀ c ∈ l, p c = false) : l.dropWhile p = l := by
  cases l with
  | nil => rfl
  | cons c t => simp [List.dropWhile_cons, h c (by simp)]

theorem pyStrip_all_false (s : Str) (h : ∀ c ∈ s, isWs c = false) :
    pyStrip s = s := by
  unfold pyStrip
  rw [dropWhile_false_all _ _ h,
    dropWhile_false_all _ _ (fun c hc => h c (List.mem_reverse.mp hc)),
    List.reverse_reverse]

theorem pyStrip_alpha (s : Str) (h : ∀ c ∈ s, isAlphaAscii c = true) :
    pyStrip s = s :=
  pyStrip_all_false s (fun c hc => alpha_not_ws (h c hc))

/-! ### Failure of city pattern 1 at pre-match positions -/

theorem matchAt_cityP1_nohead (s : Str) (j : Nat)
    (h1 : icPrefix (strL "in") (s.drop j) = false)
    (h2 : icPrefix (strL "for") (s.drop j) = false)
    (h3 : icPrefix (strL "at") (s.drop j) = false) :
    matchAt s cityP1 j = none := by
  unfold matchAt cityP1 inForAt
  rw [reMatch_cat, reMatch_alt, reMatch_litStrIC, h1]
  simp only [if_false, Bool.false_eq_true]
  rw [reMatch_alt, reMatch_litStrIC, h2]
  simp only [if_false, Bool.false_eq_true]
  rw [reMatch_litStrIC, h3]
  simp

theorem matchAt_cityP1_at_nows (s : Str) (j : Nat)
    (h1 : icPrefix (strL "in") (s.drop j) = false)
    (h2 : icPrefix (strL "for") (s.drop j) = false)
    (h3 : icPrefix (strL "at") (s.drop j) = true)
    (hws : runLen isWs s (j + 2) = 0) :
    matchAt s cityP1 j = none := by
  unfold matchAt cityP1 inForAt
  rw [reMatch_cat, reMatch_alt, reMatch_litStrIC, h1]
  simp only [if_false, Bool.false_eq_true]
  rw [reMatch_alt, reMatch_litStrIC, h2]
  simp only [if_false, Bool.false_eq_true]
  rw [reMatch_litStrIC, h3, if_pos rfl, reMatch_cat,
    reMatch_wsPlus_zero _ _ _ _ (by simpa using hws)]

theorem matchAt_cityP1_for_nows (s : Str) (j : Nat)
    (h1 : icPrefix (strL "in") (s.drop j) = false)
    (h2 : icPrefix (strL "for") (s.drop j) = true)
    (h3 : icPrefix (strL "at") (s.drop j) = false)
    (hws : runLen isWs s (j + 3) = 0) :
    matchAt s cityP1 j = none := by
  unfold matchAt cityP1 inForAt
  rw [reMatch_cat, reMatch_alt, reMatch_litStrIC, h1]
  simp only [if_false, Bool.false_eq_true]
  rw [reMatch_alt, reMatch_litStrIC, h2, if_pos rfl, reMatch_cat,
    reMatch_wsPlus_zero _ _ _ _ (by simpa using hws)]
  rw [reMatch_litStrIC, h3]
  simp

/-- A case-insensitive literal probe that fits inside the concrete prefix is
decided by that prefix alone. -/
theorem icPrefix_eval_append (w A B : Str) (h : w.length ≤ A.length) :
    icPrefix w (A ++ B) = icPrefix w A := by
  induction w generalizing A with
  | nil => rw [icPrefix_nil, icPrefix_nil]
  | cons c w2 ih =>
    cases A with
    | nil => simp at h
    | cons a A2 =>
      rw [List.cons_append, icPrefix_cons, icPrefix_cons,
        ih A2 (by simpa using h)]

theorem alpha_of_upper {c : Char} (h : isUpperAscii c = true) :
    isAlphaAscii c = true := by
  simp [isAlphaAscii, h]

theorem runLenFrom_head_true (p : Char → Bool) (c : Char) (t : Str)
    (h : p c = true) : runLenFrom p (c :: t) = runLenFrom p t + 1 := by
  simp [runLenFrom, h]

/-- City pattern 1 succeeds through the `in` alternative when the rest of the
pattern matches right after it. -/
theorem matchAt_cityP1_in_succ (s : Str) (j : Nat) (v : Nat × Caps)
    (h1 : icPrefix (strL "in") (s.drop j) = true)
    (hrest : reMatch s (.cat wsPlus (.cat (.grp 1 (.rep true true isAlphaWs))
        (.cat optCountry (.cat wsStar cityStop)))) (j + 2) []
        (fun e cs => some (e, cs)) = some v) :
    matchAt s cityP1 j = some v := by
  unfold matchAt cityP1 inForAt
  rw [reMatch_cat, reMatch_alt, reMatch_litStrIC, h1, if_pos rfl]
  have hb : reMatch s (.cat wsPlus (.cat (.grp 1 (.rep true true isAlphaWs))
      (.cat optCountry (.cat wsStar cityStop)))) (j + (strL "in").length) []
      (fun e cs => some (e, cs)) = some v := by
    rw [show (strL "in").length = 2 from rfl]
    exact hrest
  rw [hb]

/-- City pattern 1 succeeds through the `for` alternative when `in` does not
probe and the rest of the pattern matches right after `for`. -/
theorem matchAt_cityP1_for_succ (s : Str) (j : Nat) (v : Nat × Caps)
    (h1 : icPrefix (strL "in") (s.drop j) = false)
    (h2 : icPrefix (strL "for") (s.drop j) = true)
    (hrest : reMatch s (.cat wsPlus (.cat (.grp 1 (.rep true true isAlphaWs))
        (.cat optCountry (.cat wsStar cityStop)))) (j + 3) []
        (fun e cs => some (e, cs)) = some v) :
    matchAt s cityP1 j = some v := by
  unfold matchAt cityP1 inForAt
  rw [reMatch_cat, reMatch_alt, reMatch_litStrIC, h1]
  simp only [if_false, Bool.false_eq_true]
  rw [reMatch_alt, reMatch_litStrIC, h2, if_pos rfl]
  have hb : reMatch s (.cat wsPlus (.cat (.grp 1 (.rep true true isAlphaWs))
      (.cat optCountry (.cat wsStar cityStop)))) (j + (strL "for").length) []
      (fun e cs => some (e, cs)) = some v := by
    rw [show (strL "for").length = 3 from rfl]
    exact hrest
  rw [hb]

/-- C7 (amended): for an input of the exact shape `"weather in <City>, <CC>"`,
with `<City>` nonempty all-ASCII-letter and `<CC>` two ASCII uppercase
letters, provided the input contains none of the stop words `today`,
`tomorrow`, `this`, `next` (case-insensitively), `_extract_city` returns
`"<City>,<CC>"` — the city and country code joined by a comma with no
space. -/
theorem extract_city_country_amended (city : Str) (u1 u2 : Char) (s : Str)
    (hs : s = strL "weather in " ++ (city ++ (',' :: ' ' :: [u1, u2])))
    (hnil : city ≠ [])
    (hcity : ∀ c ∈ city, isAlphaAscii c = true)
    (hu1 : isUpperAscii u1 = true) (hu2 : isUpperAscii u2 = true)
    (hT1 : containsSub (lowerStr s) (strL "today") = false)
    (hT2 : containsSub (lowerStr s) (strL "tomorrow") = false)
    (hT3 : containsSub (lowerStr s) (strL "this") = false)
    (hT4 : containsSub (lowerStr s) (strL "next") = false) :
    extract_city s = some (city ++ [','] ++ [u1, u2]) := by
  have hau1 : isAlphaAscii u1 = true := alpha_of_upper hu1
  have hau2 : isAlphaAscii u2 = true := alpha_of_upper hu2
  have hdropA : ∀ j, j ≤ 11 → s.drop j =
      (strL "weather in ").drop j ++ (city ++ (',' :: ' ' :: [u1, u2])) := by
    intro j hj
    rw [hs]
    exact drop_append_of_le _ _ (by rw [show (strL "weather in ").length = 11 from rfl]; omega)
  have hic : ∀ (w : Str) (j : Nat), j ≤ 8 → w.length ≤ 3 →
      icPrefix w (s.drop j) = icPrefix w ((strL "weather in ").drop j) := by
    intro w j hj hw
    rw [hdropA j (by omega)]
    exact icPrefix_eval_append w _ _
      (by rw [List.length_drop, show (strL "weather in ").length = 11 from rfl]; omega)
  have hs1 : ∀ q, icPrefix (strL "today") (s.drop q) = false := fun q =>
    icPrefix_false_of_not_contains
      (by rw [show lowerStr (strL "today") = strL "today" from rfl]; exact hT1) q
  have hs2 : ∀ q, icPrefix (strL "tomorrow") (s.drop q) = false := fun q =>
    icPrefix_false_of_not_contains
      (by rw [show lowerStr (strL "tomorrow") = strL "tomorrow" from rfl]; exact hT2) q
  have hs3 : ∀ q, icPrefix (strL "this") (s.drop q) = false := fun q =>
    icPrefix_false_of_not_contains
      (by rw [show lowerStr (strL "this") = strL "this" from rfl]; exact hT3) q
  have hs4 : ∀ q, icPrefix (strL "next") (s.drop q) = false := fun q =>
    icPrefix_false_of_not_contains
      (by rw [show lowerStr (strL "next") = strL "next" from rfl]; exact hT4) q
  have hdrop10 : s.drop 10 = ' ' :: (city ++ (',' :: ' ' :: [u1, u2])) := by
    rw [hdropA 10 (by omega)]
    rfl
  have hdrop11 : s.drop 11 = city ++ (',' :: ' ' :: [u1, u2]) := by
    rw [hdropA 11 (by omega)]
    rfl
  have hdropn : s.drop (11 + city.length) = ',' :: ' ' :: [u1, u2] := by
    rw [drop_add, hdrop11, drop_append_first]
  have hslen : s.length = 15 + city.length := by
    rw [hs, List.length_append, List.length_append,
      show (strL "weather in ").length = 11 from rfl,
      show (',' :: ' ' :: [u1, u2]).length = 4 from rfl]
    omega
  have hws4 : runLen isWs s 4 = 0 := by
    rw [runLen_eq, hdropA 4 (by omega)]
    exact runLenFrom_head_false _ 'h' (strL "er in " ++ (city ++ (',' :: ' ' :: [u1, u2])))
      (by decide)
  have hws10 : runLen isWs s 10 = 1 := by
    cases hc : city with
    | nil => exact absurd hc hnil
    | cons c0 ct =>
      rw [runLen_eq, hdrop10, hc, List.cons_append,
        runLenFrom_head_true _ _ _ (by decide),
        runLenFrom_head_false isWs c0 (ct ++ (',' :: ' ' :: [u1, u2]))
          (alpha_not_ws (hcity c0 (by rw [hc]; exact List.mem_cons_self c0 ct)))]
  have hrest : reMatch s (.cat wsPlus (.cat (.grp 1 (.rep true true isAlphaWs))
      (.cat optCountry (.cat wsStar cityStop)))) (8 + 2) []
      (fun e cs => some (e, cs)) = some (11 + city.length + 4,
        [(2, 11 + city.length + 2, 11 + city.length + 4), (1, 11, 11 + city.length)]) := by
    rw [show (8 + 2 : Nat) = 10 from rfl, reMatch_cat,
      reMatch_wsPlus_one _ _ _ _ hws10]
    show reMatch s (.cat (.grp 1 (.rep true true isAlphaWs))
        (.cat optCountry (.cat wsStar cityStop))) (10 + 1) []
        (fun e cs => some (e, cs)) = _
    rw [show (10 + 1 : Nat) = 11 from rfl]
    rw [p1tail_loop s city (',' :: ' ' :: [u1, u2]) 11 [] _ hdrop11 hnil hcity
      hs1 hs2 hs3 hs4 (runLenFrom_head_false _ _ _ (by decide))]
    rw [optCountry_tail_country s (11 + city.length) _ _ u1 u2 hdropn hau1 hau2]
  have hmatch8 : matchAt s cityP1 8 = some (11 + city.length + 4,
      [(2, 11 + city.length + 2, 11 + city.length + 4), (1, 11, 11 + city.length)]) :=
    matchAt_cityP1_in_succ s 8 _
      (by rw [hic (strL "in") 8 (by omega) (by decide)]; decide) hrest
  have hfail : ∀ j, j < 8 → matchAt s cityP1 j = none := by
    intro j hj
    interval_cases j
    · exact matchAt_cityP1_nohead s 0
        (by rw [hic (strL "in") 0 (by omega) (by decide)]; decide)
        (by rw [hic (strL "for") 0 (by omega) (by decide)]; decide)
        (by rw [hic (strL "at") 0 (by omega) (by decide)]; decide)
    · exact matchAt_cityP1_nohead s 1
        (by rw [hic (strL "in") 1 (by omega) (by decide)]; decide)
        (by rw [hic (strL "for") 1 (by omega) (by decide)]; decide)
        (by rw [hic (strL "at") 1 (by omega) (by decide)]; decide)
    · exact matchAt_cityP1_at_nows s 2
        (by rw [hic (strL "in") 2 (by omega) (by decide)]; decide)
        (by rw [hic (strL "for") 2 (by omega) (by decide)]; decide)
        (by rw [hic (strL "at") 2 (by omega) (by decide)]; decide)
        hws4
    · exact matchAt_cityP1_nohead s 3
        (by rw [hic (strL "in") 3 (by omega) (by decide)]; decide)
        (by rw [hic (strL "for") 3 (by omega) (by decide)]; decide)
        (by rw [hic (strL "at") 3 (by omega) (by decide)]; decide)
    · exact matchAt_cityP1_nohead s 4
        (by rw [hic (strL "in") 4 (by omega) (by decide)]; decide)
        (by rw [hic (strL "for") 4 (by omega) (by decide)]; decide)
        (by rw [hic (strL "at") 4 (by omega) (by decide)]; decide)
    · exact matchAt_cityP1_nohead s 5
        (by rw [hic (strL "in") 5 (by omega) (by decide)]; decide)
        (by rw [hic (strL "for") 5 (by omega) (by decide)]; decide)
        (by rw [hic (strL "at") 5 (by omega) (by decide)]; decide)
    · exact matchAt_cityP1_nohead s 6
        (by rw [hic (strL "in") 6 (by omega) (by decide)]; decide)
        (by rw [hic (strL "for") 6 (by omega) (by decide)]; decide)
        (by rw [hic (strL "at") 6 (by omega) (by decide)]; decide)
    · exact matchAt_cityP1_nohead s 7
        (by rw [hic (strL "in") 7 (by omega) (by decide)]; decide)
        (by rw [hic (strL "for") 7 (by omega) (by decide)]; decide)
        (by rw [hic (strL "at") 7 (by omega) (by decide)]; decide)
  have hsearch : reSearch s cityP1 = some (8, 11 + city.length + 4,
      [(2, 11 + city.length + 2, 11 + city.length + 4), (1, 11, 11 + city.length)]) :=
    reSearch_found s cityP1 8 _ _ hmatch8 hfail (by rw [hslen]; omega)
  have hcap2 : capStr s [(2, 11 + city.length + 2, 11 + city.length + 4),
      (1, 11, 11 + city.length)] 2 = some [u1, u2] := by
    unfold capStr
    rw [show List.lookup 2 [(2, 11 + city.length + 2, 11 + city.length + 4),
      (1, 11, 11 + city.length)] = some (11 + city.length + 2, 11 + city.length + 4)
      from by simp [List.lookup]]
    show some ((s.take (11 + city.length + 4)).drop (11 + city.length + 2)) = some [u1, u2]
    have ht : s.take (11 + city.length + 4) = s := by
      rw [show 11 + city.length + 4 = s.length from by rw [hslen]; omega, List.take_length]
    rw [ht, drop_add s (11 + city.length) 2, hdropn]
    rfl
  have hcap1 : capStr s [(2, 11 + city.length + 2, 11 + city.length + 4),
      (1, 11, 11 + city.length)] 1 = some city := by
    unfold capStr
    rw [show List.lookup 1 [(2, 11 + city.length + 2, 11 + city.length + 4),
      (1, 11, 11 + city.length)] = some (11, 11 + city.length)
      from by simp [List.lookup]]
    show some ((s.take (11 + city.length)).drop 11) = some city
    have htk : s.take (11 + city.length) = strL "weather in " ++ city := by
      rw [hs, show (11 : Nat) = (strL "weather in ").length from rfl,
        take_append_add, take_append_first]
    rw [htk, show (11 : Nat) = (strL "weather in ").length from rfl, drop_append_first]
  have hres : extract_city s = some (cityFromMatch s
      [(2, 11 + city.length + 2, 11 + city.length + 4), (1, 11, 11 + city.length)]) := by
    unfold extract_city
    rw [hsearch]
  rw [hres]
  unfold cityFromMatch
  rw [hcap1, hcap2]
  simp [pyStrip_alpha city hcity]

/-- C7 witness: the amended statement instantiated at the spec's own example
`"weather in Paris, FR"`, which yields `"Paris,FR"`. -/
theorem extract_city_country_amended_witness :
    extract_city (strL "weather in Paris, FR") = some (strL "Paris,FR") := by
  have h := extract_city_country_amended (strL "Paris") 'F' 'R'
    (strL "weather in Paris, FR") (by decide) (by decide)
    (by decide) (by decide) (by decide) (by decide) (by decide) (by decide)
    (by decide)
  rw [h]
  decide

/-! ### Character-folding facts for the amended C2 claim -/

theorem toLower_toNat (c : Char) :
    (Char.toLower c).toNat =
      if c.toNat ≥ 65 ∧ c.toNat ≤ 90 then c.toNat + 32 else c.toNat := by
  show (if c.toNat ≥ 65 ∧ c.toNat ≤ 90 then Char.ofNat (c.toNat + 32) else c).toNat = _
  split
  · rename_i h
    unfold Char.ofNat
    rw [dif_pos (by left; omega)]
    rfl
  · rfl

theorem digit_toLower {c : Char} (h : isDigitAscii c = true) : c.toLower = c := by
  show (if c.toNat ≥ 65 ∧ c.toNat ≤ 90 then Char.ofNat (c.toNat + 32) else c) = c
  rw [if_neg (by simp [isDigitAscii] at h; omega)]

theorem digit_not_ws {c : Char} (h : isDigitAscii c = true) : isWs c = false := by
  simp [isDigitAscii] at h
  simp [isWs]
  omega

theorem toLower_not_ws {c : Char} (h : isWs c = false) : isWs c.toLower = false := by
  have ht := toLower_toNat c
  simp [isWs] at h ⊢
  split at ht <;> omega

theorem digit_ne_lower {d c0 : Char} (hd : isDigitAscii d = true)
    (hc : 58 ≤ c0.toNat) : decide (d.toLower = c0) = false := by
  rw [digit_toLower hd]
  apply decide_char_eq_false
  simp [isDigitAscii] at hd
  omega

theorem dropWhile_cons_false (p : Char → Bool) (c : Char) (t : Str)
    (h : p c = false) : (c :: t).dropWhile p = c :: t := by
  simp [List.dropWhile_cons, h]

/-- `str.strip()` is the identity when both ends are visibly non-space. -/
theorem pyStrip_eq_self_of (c e : Char) (m : Str)
    (hc : isWs c = false) (he : isWs e = false) :
    pyStrip (c :: (m ++ [e])) = c :: (m ++ [e]) := by
  unfold pyStrip
  rw [dropWhile_cons_false _ _ _ hc,
    show (c :: (m ++ [e])).reverse = e :: (m.reverse ++ [c]) from by simp,
    dropWhile_cons_false _ _ _ he]
  simp

/-! ### Failure of the three compare patterns -/

theorem matchAt_compareP1_none (s : Str) (j : Nat)
    (h : icPrefix (strL "compare") (s.drop j) = false) :
    matchAt s compareP1 j = none := by
  unfold matchAt compareP1
  rw [reMatch_cat, reMatch_litStrIC, h]
  simp

theorem matchAt_compareP3_none (s : Str) (j : Nat)
    (h : icPrefix (strL "weather") (s.drop j) = false) :
    matchAt s compareP3 j = none := by
  unfold matchAt compareP3
  rw [reMatch_cat, reMatch_litStrIC, h]
  simp

/-- Compare pattern 2 can only succeed by reading `vs` or `versus` somewhere;
if neither probes anywhere, every anchored match fails. -/
theorem matchAt_compareP2_none (s : Str) (j : Nat)
    (hvs : ∀ q, icPrefix (strL "vs") (s.drop q) = false)
    (hversus : ∀ q, icPrefix (strL "versus") (s.drop q) = false) :
    matchAt s compareP2 j = none := by
  unfold matchAt compareP2
  rw [reMatch_cat, reMatch_grp, reMatch_rep]
  apply firstSome_none_of_all
  intro x _
  show reMatch s (.cat wsPlus (.cat (.alt (litStrIC (strL "vs"))
      (litStrIC (strL "versus"))) (.cat wsPlus (.grp 2 (.rep false true isAlphaWs)))))
      (j + x) [(1, j, j + x)] (fun e cs => some (e, cs)) = none
  rw [reMatch_cat, show wsPlus = RE.rep false true isWs from rfl, reMatch_rep]
  apply firstSome_none_of_all
  intro y _
  show reMatch s (.cat (.alt (litStrIC (strL "vs")) (litStrIC (strL "versus")))
      (.cat wsPlus (.grp 2 (.rep false true isAlphaWs)))) (j + x + y)
      [(1, j, j + x)] (fun e cs => some (e, cs)) = none
  rw [reMatch_cat, reMatch_alt, reMatch_litStrIC, hvs (j + x + y)]
  simp only [if_false, Bool.false_eq_true]
  rw [reMatch_litStrIC, hversus (j + x + y)]
  simp

/-- The compare loop finds nothing when none of `compare`, `weather`, `vs`,
`versus` occurs in the lowercased query. -/
theorem compareMatch_none_of {s : Str}
    (hcomp : containsSub (lowerStr s) (strL "compare") = false)
    (hweather : containsSub (lowerStr s) (strL "weather") = false)
    (hvs : containsSub (lowerStr s) (strL "vs") = false)
    (hversus : containsSub (lowerStr s) (strL "versus") = false) :
    compareMatch s = none := by
  have h1 : reSearch s compareP1 = none :=
    reSearch_none s compareP1 (fun j => matchAt_compareP1_none s j
      (icPrefix_false_of_not_contains
        (by rw [show lowerStr (strL "compare") = strL "compare" from rfl]; exact hcomp) j))
  have h2 : reSearch s compareP2 = none :=
    reSearch_none s compareP2 (fun j => matchAt_compareP2_none s j
      (fun q => icPrefix_false_of_not_contains
        (by rw [show lowerStr (strL "vs") = strL "vs" from rfl]; exact hvs) q)
      (fun q => icPrefix_false_of_not_contains
        (by rw [show lowerStr (strL "versus") = strL "versus" from rfl]; exact hversus) q))
  have h3 : reSearch s compareP3 = none :=
    reSearch_none s compareP3 (fun j => matchAt_compareP3_none s j
      (icPrefix_false_of_not_contains
        (by rw [show lowerStr (strL "weather") = strL "weather" from rfl]; exact hweather) j))
  unfold compareMatch
  rw [h1, h2, h3]

theorem containsSub_cons_of {t w : Str} (c : Char) (h : containsSub t w = true) :
    containsSub (c :: t) w = true := by
  show (w.isPrefixOf (c :: t) || containsSub t w) = true
  rw [h]
  simp

/-- The day-count search on a lowercased query beginning `"<digit> day"`:
the digit run is group 1, `\s*` takes the single space, `day` matches. -/
theorem daysOf_digit_day (d : Char) (r : Str) (hd : isDigitAscii d = true) :
    daysOf (d :: (strL " day" ++ r)) = d.toNat - 48 := by
  have hrl0 : runLen isDigitAscii (d :: (strL " day" ++ r)) 0 = 1 := by
    rw [runLen_eq]
    show runLenFrom isDigitAscii (d :: (strL " day" ++ r)) = 1
    rw [runLenFrom_head_true _ _ _ hd,
      show strL " day" ++ r = ' ' :: (strL "day" ++ r) from rfl,
      runLenFrom_head_false _ _ _ (by decide)]
  have hws1 : runLen isWs (d :: (strL " day" ++ r)) 1 = 1 := by
    rw [runLen_eq, show (d :: (strL " day" ++ r)).drop 1 = ' ' :: (strL "day" ++ r) from rfl,
      runLenFrom_head_true _ _ _ (by decide),
      show strL "day" ++ r = 'd' :: (strL "ay" ++ r) from rfl,
      runLenFrom_head_false _ _ _ (by decide)]
  have hpre : (strL "day").isPrefixOf ((d :: (strL " day" ++ r)).drop 2) = true := by
    rw [show (d :: (strL " day" ++ r)).drop 2 = strL "day" ++ r from rfl]
    exact isPrefixOf_append_of_isPrefixOf r (by decide)
  have hm0 : matchAt (d :: (strL " day" ++ r)) daysRE 0 = some (5, [(1, 0, 1)]) := by
    unfold matchAt daysRE
    rw [reMatch_cat, reMatch_grp, reMatch_rep, hrl0]
    show firstSome _ (downRange 1 1) = _
    rw [show downRange 1 1 = [1] from rfl, firstSome_singleton]
    show reMatch (d :: (strL " day" ++ r)) (.cat wsStar (litStr (strL "day"))) (0 + 1)
      [(1, 0, 0 + 1)] (fun e cs => some (e, cs)) = some (5, [(1, 0, 1)])
    rw [show (0 + 1 : Nat) = 1 from rfl, reMatch_cat,
      reMatch_wsStar_one _ _ _ _ hws1,
      show (1 + 1 : Nat) = 2 from rfl, reMatch_litStr, hpre, if_pos rfl]
    rfl
  have hsearch : reSearch (d :: (strL " day" ++ r)) daysRE = some (0, 5, [(1, 0, 1)]) :=
    reSearch_found _ daysRE 0 _ _ hm0 (fun j hj => absurd hj (by omega)) (by omega)
  unfold daysOf
  rw [hsearch]
  show digitsToNat ((capStr (d :: (strL " day" ++ r)) [(1, 0, 1)] 1).getD []) = d.toNat - 48
  rw [show capStr (d :: (strL " day" ++ r)) [(1, 0, 1)] 1 = some [d] from by
    unfold capStr
    simp [List.lookup]]
  show digitsToNat [d] = d.toNat - 48
  simp [digitsToNat]

/-- On `"<digit> day forecast for <City>"` (all-letter nonempty city, no stop
word anywhere), city pattern 1 anchors on the second `for` and captures the
whole city. -/
theorem extract_city_day_forecast (d : Char) (city : Str) (s : Str)
    (hs : s = d :: (strL " day forecast for " ++ city))
    (hd : isDigitAscii d = true)
    (hnil : city ≠ [])
    (hcity : ∀ c ∈ city, isAlphaAscii c = true)
    (hT1 : containsSub (lowerStr s) (strL "today") = false)
    (hT2 : containsSub (lowerStr s) (strL "tomorrow") = false)
    (hT3 : containsSub (lowerStr s) (strL "this") = false)
    (hT4 : containsSub (lowerStr s) (strL "next") = false) :
    extract_city s = some city := by
  have hdtail : ∀ m, m ≤ 18 → s.drop (m + 1) =
      (strL " day forecast for ").drop m ++ city := by
    intro m hm
    rw [hs, List.drop_succ_cons]
    exact drop_append_of_le _ _
      (by rw [show (strL " day forecast for ").length = 18 from rfl]; omega)
  have hic : ∀ (w : Str) (j : Nat), 1 ≤ j → j ≤ 16 → w.length ≤ 3 →
      icPrefix w (s.drop j) = icPrefix w ((strL " day forecast for ").drop (j - 1)) := by
    intro w j h1 hj hw
    have h := hdtail (j - 1) (by omega)
    rw [show j - 1 + 1 = j from by omega] at h
    rw [h]
    exact icPrefix_eval_append w _ _
      (by rw [List.length_drop, show (strL " day forecast for ").length = 18 from rfl]; omega)
  have hic0 : ∀ (c0 : Char) (w : Str), 58 ≤ c0.toNat →
      icPrefix (c0 :: w) (s.drop 0) = false := by
    intro c0 w hc
    rw [hs]
    show icPrefix (c0 :: w) (d :: (strL " day forecast for " ++ city)) = false
    apply icPrefix_head_ne
    rw [digit_toLower hd]
    apply decide_char_eq_false
    have ht := toLower_toNat c0
    have hd2 : 48 ≤ d.toNat ∧ d.toNat ≤ 57 := by simpa [isDigitAscii] using hd
    split at ht <;> omega
  have hs1 : ∀ q, icPrefix (strL "today") (s.drop q) = false := fun q =>
    icPrefix_false_of_not_contains
      (by rw [show lowerStr (strL "today") = strL "today" from rfl]; exact hT1) q
  have hs2 : ∀ q, icPrefix (strL "tomorrow") (s.drop q) = false := fun q =>
    icPrefix_false_of_not_contains
      (by rw [show lowerStr (strL "tomorrow") = strL "tomorrow" from rfl]; exact hT2) q
  have hs3 : ∀ q, icPrefix (strL "this") (s.drop q) = false := fun q =>
    icPrefix_false_of_not_contains
      (by rw [show lowerStr (strL "this") = strL "this" from rfl]; exact hT3) q
  have hs4 : ∀ q, icPrefix (strL "next") (s.drop q) = false := fun q =>
    icPrefix_false_of_not_contains
      (by rw [show lowerStr (strL "next") = strL "next" from rfl]; exact hT4) q
  have hslen : s.length = 19 + city.length := by
    rw [hs, List.length_cons, List.length_append,
      show (strL " day forecast for ").length = 18 from rfl]
    omega
  have hws9 : runLen isWs s 9 = 0 := by
    rw [runLen_eq, show s.drop 9 = strL "ecast for " ++ city from hdtail 8 (by omega)]
    exact runLenFrom_head_false isWs 'e' (strL "cast for " ++ city) (by decide)
  have hdrop18 : s.drop 18 = ' ' :: city := by
    rw [show s.drop 18 = (strL " day forecast for ").drop 17 ++ city from
      hdtail 17 (by omega)]
    rfl
  have hdrop19 : s.drop 19 = city := by
    rw [show s.drop 19 = (strL " day forecast for ").drop 18 ++ city from
      hdtail 18 (by omega)]
    rfl
  have hws18 : runLen isWs s 18 = 1 := by
    cases hc : city with
    | nil => exact absurd hc hnil
    | cons c0 ct =>
      rw [runLen_eq, hdrop18, hc, runLenFrom_head_true _ _ _ (by decide),
        runLenFrom_head_false isWs c0 ct
          (alpha_not_ws (hcity c0 (by rw [hc]; exact List.mem_cons_self c0 ct)))]
  have hdropend : s.drop (19 + city.length) = [] := by
    rw [drop_add, hdrop19, List.drop_length]
  have hrest : reMatch s (.cat wsPlus (.cat (.grp 1 (.rep true true isAlphaWs))
      (.cat optCountry (.cat wsStar cityStop)))) (15 + 3) []
      (fun e cs => some (e, cs)) =
      some (19 + city.length, [(1, 19, 19 + city.length)]) := by
    rw [show (15 + 3 : Nat) = 18 from rfl, reMatch_cat,
      reMatch_wsPlus_one _ _ _ _ hws18]
    show reMatch s (.cat (.grp 1 (.rep true true isAlphaWs))
        (.cat optCountry (.cat wsStar cityStop))) (18 + 1) []
        (fun e cs => some (e, cs)) = _
    rw [show (18 + 1 : Nat) = 19 from rfl]
    rw [p1tail_loop s city [] 19 [] _ (by rw [List.append_nil]; exact hdrop19)
      hnil hcity hs1 hs2 hs3 hs4 rfl]
    rw [optCountry_tail_end s (19 + city.length) _ _ hdropend (by rw [hslen])]
  have hmatch15 : matchAt s cityP1 15 =
      some (19 + city.length, [(1, 19, 19 + city.length)]) :=
    matchAt_cityP1_for_succ s 15 _
      (by rw [hic (strL "in") 15 (by omega) (by omega) (by decide)]; decide)
      (by rw [hic (strL "for") 15 (by omega) (by omega) (by decide)]; decide)
      hrest
  have hfail : ∀ j, j < 15 → matchAt s cityP1 j = none := by
    intro j hj
    interval_cases j
    · exact matchAt_cityP1_nohead s 0
        (hic0 'i' (strL "n") (by decide))
        (hic0 'f' (strL "or") (by decide))
        (hic0 'a' (strL "t") (by decide))
    · exact matchAt_cityP1_nohead s 1
        (by rw [hic (strL "in") 1 (by omega) (by omega) (by decide)]; decide)
        (by rw [hic (strL "for") 1 (by omega) (by omega) (by decide)]; decide)
        (by rw [hic (strL "at") 1 (by omega) (by omega) (by decide)]; decide)
    · exact matchAt_cityP1_nohead s 2
        (by rw [hic (strL "in") 2 (by omega) (by omega) (by decide)]; decide)
        (by rw [hic (strL "for") 2 (by omega) (by omega) (by decide)]; decide)
        (by rw [hic (strL "at") 2 (by omega) (by omega) (by decide)]; decide)
    · exact matchAt_cityP1_nohead s 3
        (by rw [hic (strL "in") 3 (by omega) (by omega) (by decide)]; decide)
        (by rw [hic (strL "for") 3 (by omega) (by omega) (by decide)]; decide)
        (by rw [hic (strL "at") 3 (by omega) (by omega) (by decide)]; decide)
    · exact matchAt_cityP1_nohead s 4
        (by rw [hic (strL "in") 4 (by omega) (by omega) (by decide)]; decide)
        (by rw [hic (strL "for") 4 (by omega) (by omega) (by decide)]; decide)
        (by rw [hic (strL "at") 4 (by omega) (by omega) (by decide)]; decide)
    · exact matchAt_cityP1_nohead s 5
        (by rw [hic (strL "in") 5 (by omega) (by omega) (by decide)]; decide)
        (by rw [hic (strL "for") 5 (by omega) (by omega) (by decide)]; decide)
        (by rw [hic (strL "at") 5 (by omega) (by omega) (by decide)]; decide)
    · exact matchAt_cityP1_for_nows s 6
        (by rw [hic (strL "in") 6 (by omega) (by omega) (by decide)]; decide)
        (by rw [hic (strL "for") 6 (by omega) (by omega) (by decide)]; decide)
        (by rw [hic (strL "at") 6 (by omega) (by omega) (by decide)]; decide)
        hws9
    · exact matchAt_cityP1_nohead s 7
        (by rw [hic (strL "in") 7 (by omega) (by omega) (by decide)]; decide)
        (by rw [hic (strL "for") 7 (by omega) (by omega) (by decide)]; decide)
        (by rw [hic (strL "at") 7 (by omega) (by omega) (by decide)]; decide)
    · exact matchAt_cityP1_nohead s 8
        (by rw [hic (strL "in") 8 (by omega) (by omega) (by decide)]; decide)
        (by rw [hic (strL "for") 8 (by omega) (by omega) (by decide)]; decide)
        (by rw [hic (strL "at") 8 (by omega) (by omega) (by decide)]; decide)
    · exact matchAt_cityP1_nohead s 9
        (by rw [hic (strL "in") 9 (by omega) (by omega) (by decide)]; decide)
        (by rw [hic (strL "for") 9 (by omega) (by omega) (by decide)]; decide)
        (by rw [hic (strL "at") 9 (by omega) (by omega) (by decide)]; decide)
    · exact matchAt_cityP1_nohead s 10
        (by rw [hic (strL "in") 10 (by omega) (by omega) (by decide)]; decide)
        (by rw [hic (strL "for") 10 (by omega) (by omega) (by decide)]; decide)
        (by rw [hic (strL "at") 10 (by omega) (by omega) (by decide)]; decide)
    · exact matchAt_cityP1_nohead s 11
        (by rw [hic (strL "in") 11 (by omega) (by omega) (by decide)]; decide)
        (by rw [hic (strL "for") 11 (by omega) (by omega) (by decide)]; decide)
        (by rw [hic (strL "at") 11 (by omega) (by omega) (by decide)]; decide)
    · exact matchAt_cityP1_nohead s 12
        (by rw [hic (strL "in") 12 (by omega) (by omega) (by decide)]; decide)
        (by rw [hic (strL "for") 12 (by omega) (by omega) (by decide)]; decide)
        (by rw [hic (strL "at") 12 (by omega) (by omega) (by decide)]; decide)
    · exact matchAt_cityP1_nohead s 13
        (by rw [hic (strL "in") 13 (by omega) (by omega) (by decide)]; decide)
        (by rw [hic (strL "for") 13 (by omega) (by omega) (by decide)]; decide)
        (by rw [hic (strL "at") 13 (by omega) (by omega) (by decide)]; decide)
    · exact matchAt_cityP1_nohead s 14
        (by rw [hic (strL "in") 14 (by omega) (by omega) (by decide)]; decide)
        (by rw [hic (strL "for") 14 (by omega) (by omega) (by decide)]; decide)
        (by rw [hic (strL "at") 14 (by omega) (by omega) (by decide)]; decide)
  have hsearch : reSearch s cityP1 =
      some (15, 19 + city.length, [(1, 19, 19 + city.length)]) :=
    reSearch_found s cityP1 15 _ _ hmatch15 hfail (by rw [hslen]; omega)
  have hcap1 : capStr s [(1, 19, 19 + city.length)] 1 = some city := by
    unfold capStr
    rw [show List.lookup 1 [(1, 19, 19 + city.length)] = some (19, 19 + city.length)
      from by simp [List.lookup]]
    show some ((s.take (19 + city.length)).drop 19) = some city
    rw [show 19 + city.length = s.length from by rw [hslen], List.take_length, hdrop19]
  have hcap2 : capStr s [(1, 19, 19 + city.length)] 2 = none := by
    unfold capStr
    rw [show List.lookup 2 [(1, 19, 19 + city.length)] = (none : Option (Nat × Nat))
      from by simp [List.lookup]]
  have hres : extract_city s = some (cityFromMatch s [(1, 19, 19 + city.length)]) := by
    unfold extract_city
    rw [hsearch]
  rw [hres]
  unfold cityFromMatch
  rw [hcap1, hcap2]
  simp [pyStrip_alpha city hcity]

/-- C2 (amended): on `"<N> day forecast for <City>"` with `<N>` a single
digit `1`-`9` and `<City>` a nonempty all-ASCII-letter name (the text
containing no compare keyword and no stop word), `_parse_intent` emits the
forecast intent with that city and the RAW day count `N`.  The clamp to
`[1, 5]` is not applied by the classifier; it is applied downstream by
`WeatherAgent.get_forecast`, so dispatching the raw count yields the same
output as dispatching the clamped count. -/
theorem parse_intent_forecast_amended (d : Char) (city : Str) (s : Str)
    (hs : s = d :: (strL " day forecast for " ++ city))
    (hd : isDigitAscii d = true) (_hd1 : 49 ≤ d.toNat)
    (hnil : city ≠ [])
    (hcity : ∀ c ∈ city, isAlphaAscii c = true)
    (hT1 : containsSub (lowerStr s) (strL "today") = false)
    (hT2 : containsSub (lowerStr s) (strL "tomorrow") = false)
    (hT3 : containsSub (lowerStr s) (strL "this") = false)
    (hT4 : containsSub (lowerStr s) (strL "next") = false)
    (hK1 : containsSub (lowerStr s) (strL "compare") = false)
    (hK2 : containsSub (lowerStr s) (strL "weather") = false)
    (hK3 : containsSub (lowerStr s) (strL "vs") = false)
    (hK4 : containsSub (lowerStr s) (strL "versus") = false) :
    parse_intent s = Intent.forecast city (d.toNat - 48) ∧
    ∀ b : Behavior, get_forecast b city (d.toNat - 48) =
      get_forecast b city (min (max (d.toNat - 48) 1) 5) := by
  have hlow : lowerStr s = d :: (strL " day forecast for " ++ lowerStr city) := by
    rw [hs, show lowerStr (d :: (strL " day forecast for " ++ city)) =
      d.toLower :: (lowerStr (strL " day forecast for ") ++ lowerStr city) from by
        simp [lowerStr]]
    rw [digit_toLower hd,
      show lowerStr (strL " day forecast for ") = strL " day forecast for " from by decide]
  have hstrip : pyStrip (lowerStr s) = lowerStr s := by
    rcases List.eq_nil_or_concat city with hcnil | ⟨cinit, e0, hce⟩
    · exact absurd hcnil hnil
    · have h1 : lowerStr s =
          d :: ((strL " day forecast for " ++ lowerStr cinit) ++ [e0.toLower]) := by
        rw [hlow, hce]
        simp [lowerStr]
      rw [h1]
      exact pyStrip_eq_self_of _ _ _ (digit_not_ws hd)
        (toLower_not_ws (alpha_not_ws (hcity e0 (by rw [hce]; simp))))
  have hfore : containsAnySub (pyStrip (lowerStr s)) forecastWords = true := by
    rw [hstrip]
    have hsub : containsSub (lowerStr s) (strL "forecast") = true := by
      rw [hlow]
      apply containsSub_cons_of
      exact containsSub_append_of_left _ (by decide)
    simp [containsAnySub, forecastWords, hsub]
  have hext : extract_city s = some city :=
    extract_city_day_forecast d city s hs hd hnil hcity hT1 hT2 hT3 hT4
  have hdays : daysOf (pyStrip (lowerStr s)) = d.toNat - 48 := by
    rw [hstrip, hlow,
      show strL " day forecast for " ++ lowerStr city =
        strL " day" ++ (strL " forecast for " ++ lowerStr city) from by
          rw [← List.append_assoc,
            show strL " day" ++ strL " forecast for " = strL " day forecast for "
              from by decide]]
    exact daysOf_digit_day d _ hd
  have hcomp : compareMatch s = none := compareMatch_none_of hK1 hK2 hK3 hK4
  constructor
  · simp only [parse_intent]
    rw [hcomp, hfore, hext, hdays]
    simp
  · intro b
    unfold get_forecast
    cases hb : b.forecastData city with
    | ok data =>
      show b.formatForecast data (min (max (d.toNat - 48) 1) 5) =
        b.formatForecast data (min (max (min (max (d.toNat - 48) 1) 5) 1) 5)
      congr 1
      omega
    | error e => rfl

/-- C2 witness: the amended statement instantiated at
`"6 day forecast for London"` — the classifier emits the raw `days = 6`, and
`get_forecast` treats `6` and `clamp(6,1,5)` identically. -/
theorem parse_intent_forecast_amended_witness :
    parse_intent (strL "6 day forecast for London") =
      Intent.forecast (strL "London") 6 ∧
    get_forecast bx (strL "London") 6 =
      get_forecast bx (strL "London") (min (max 6 1) 5) := by
  have h := parse_intent_forecast_amended '6' (strL "London")
    (strL "6 day forecast for London") (by decide) (by decide) (by decide)
    (by decide) (by decide) (by decide) (by decide) (by decide) (by decide)
    (by decide) (by decide) (by decide) (by decide)
  exact ⟨h.1, h.2 bx⟩

end A2AWeather
